import Mathlib

/-!
A shallow embedding of the `isf` crate (src/lib.rs): the ISF metadata data
model, its serde-based decode/encode logic, and the top-comment extraction
entry point, together with theorems settling the specification claims.

Modelling conventions:
* JSON values are modelled by the inductive `Json`; JSON numbers follow
  serde_json's internal trichotomy (`u64` / negative `i64` / `f64`), with
  finite `f64`/`f32` values modelled as exact rationals (`ℚ`).  JSON text can
  only denote finite numbers, so NaN/infinity never arise.  The `f64 → f32`
  rounding performed by `serde_json::from_value::<f32>` is a retraction of the
  exact `f32 → f64` embedding, and is abstracted as the identity on the
  rational carrier.
* JSON objects are association lists; `serde_json::Value` objects have unique
  keys, which decode respects by first-key lookup.
* Rust machine integers are modelled as subtypes of `Int`/`Nat` with their
  range invariants (`I32`, `U32`).
* Fallible Rust code returns `Except`.  The `unimplemented!()` macro reached
  by `Deserialize for Input` on an unknown `TYPE` tag is a thread panic, not
  a serde error; it is modelled by the distinguished outcome
  `RunError.panicUnimplemented`, kept apart from ordinary decode errors
  `RunError.de`.
* Source text is modelled as `List Char`; the comment markers are ASCII, so
  occurrence structure coincides with Rust's byte-index `str::find`.
-/

/-- A JSON number as stored by `serde_json::Number`: a nonnegative integer
(`u64`, the `is_u64` case), a negative integer (`i64`), or a floating-point
number (`f64`, the `is_f64` case) modelled as an exact rational. -/
inductive JNum where
  | uint : Nat → JNum
  | int : Int → JNum
  | float : ℚ → JNum

/-- A `serde_json::Value`. Objects are association lists with unique keys. -/
inductive Json where
  | null : Json
  | bool : Bool → Json
  | num : JNum → Json
  | str : String → Json
  | arr : List Json → Json
  | obj : List (String × Json) → Json

/-- Key lookup in a JSON object (first matching key). -/
def lookupKey (kvs : List (String × Json)) (k : String) : Option Json :=
  match kvs with
  | [] => none
  | (k', v) :: rest => if k' = k then some v else lookupKey rest k

/-- Extraction of a `#[serde(default)] Option<serde_json::Value>` field:
a missing field defaults to `None`, and a present `null` deserializes to
`None` via `Option`'s deserializer. -/
def getOptValue (kvs : List (String × Json)) (k : String) : Option Json :=
  match lookupKey kvs k with
  | none => none
  | some .null => none
  | some v => some v

/-- The numeric value of a JSON number (exact; models `as f32`/`as f64`
conversions on the rational carrier). -/
def JNum.toQ : JNum → ℚ
  | .uint n => (n : ℚ)
  | .int i => (i : ℚ)
  | .float q => q

/-- Rust's saturating `f64 as u64` cast on a finite double: truncation toward
zero, with negative values clamping to `0` and values at or above `2^64`
clamping to `u64::MAX`. -/
def f64AsU64 (q : ℚ) : Nat :=
  min q.floor.toNat (2 ^ 64 - 1)

/-- Decimal digits of the fractional part `r / d` (used by `ryuStr`). -/
def fracDigits : Nat → Nat → Nat → String
  | _, _, 0 => ""
  | r, d, fuel + 1 =>
    let r10 := r * 10
    let digit := r10 / d
    let r' := r10 % d
    Nat.repr digit ++ (if r' = 0 then "" else fracDigits r' d fuel)

/-- Models the `ryu` rendering of a finite `f64` used by
`serde_json::Number`'s `Display` (hence by `.to_string()`): rendered as the
exact terminating decimal expansion of the dyadic rational, with a `.0`
fractional part for integral values.  (`ryu` prints the shortest decimal that
round-trips; this agrees with the exact expansion on dyadic rationals with
short expansions, and the abstraction is irrelevant to the claims, which
exercise integer-valued numbers.) -/
def ryuStr (q : ℚ) : String :=
  let sign := if q < 0 then "-" else ""
  let n := q.num.natAbs
  let d := q.den
  let ip := n / d
  let r := n % d
  sign ++ Nat.repr ip ++ "." ++ (if r = 0 then "0" else fracDigits r d 4000)

/-- `serde_json::Number`'s `Display`/`.to_string()`: `itoa` decimal rendering
for integers, `ryu` rendering for floats. -/
def jnumToString : JNum → String
  | .uint n => Nat.repr n
  | .int i => Int.repr i
  | .float q => ryuStr q

/-- `deserialize_bool` (src/lib.rs:391-406): accepts a native boolean; a
number in the `is_u64` case maps to `n != 0`; otherwise a number in the
`is_f64` case maps through the saturating `as u64` cast to `!= 0`; every
other value (including a negative-integer number, for which both guards
fail) falls through to `serde_json::from_value::<bool>`, which errors. -/
def deserialize_bool (v : Json) : Except String Bool :=
  match v with
  | .bool b => .ok b
  | .num (.uint n) => .ok (n != 0)
  | .num (.float q) => .ok (f64AsU64 q != 0)
  | _ => .error "invalid type, expected a boolean"

/-- `deserialize_opt_string` (src/lib.rs:409-421) applied to a present field
value: `null` maps to `None`, a number maps to its `.to_string()` rendering,
a string passes through, and anything else errors. -/
def deserialize_opt_string (v : Json) : Except String (Option String) :=
  match v with
  | .null => .ok none
  | .num n => .ok (some (jnumToString n))
  | .str s => .ok (some s)
  | _ => .error "invalid type, expected a string or number"

/-- Rust `i32` values. -/
abbrev I32 := {i : Int // -(2 ^ 31) ≤ i ∧ i < 2 ^ 31}

/-- Rust `u32` values. -/
abbrev U32 := {n : Nat // n < 2 ^ 32}

/-- Rust `f32` values: finite floats modelled as exact rationals. -/
abbrev F32 := ℚ

/-- `serde_json::from_value::<i32>`: integer numbers in range are accepted
(`visit_u64` / `visit_i64` with a range check); floats and non-numbers
error. -/
def fromValueI32 (v : Json) : Except String I32 :=
  match v with
  | .num (.uint n) =>
    if h : (n : Int) < 2 ^ 31 then .ok ⟨(n : Int), ⟨by omega, h⟩⟩
    else .error "invalid value, out of range for i32"
  | .num (.int i) =>
    if h : -(2 ^ 31) ≤ i ∧ i < 2 ^ 31 then .ok ⟨i, h⟩
    else .error "invalid value, out of range for i32"
  | _ => .error "invalid type, expected i32"

/-- `serde_json::from_value::<u32>`: integer numbers in `[0, 2^32)` are
accepted; negative integers, floats and non-numbers error. -/
def fromValueU32 (v : Json) : Except String U32 :=
  match v with
  | .num (.uint n) =>
    if h : n < 2 ^ 32 then .ok ⟨n, h⟩
    else .error "invalid value, out of range for u32"
  | .num (.int i) =>
    if h : 0 ≤ i ∧ i < 2 ^ 32 then .ok ⟨i.toNat, by omega⟩
    else .error "invalid value, out of range for u32"
  | _ => .error "invalid type, expected u32"

/-- `serde_json::from_value::<Option<u32>>`: `null` maps to `None`, anything
else through the `u32` deserializer. -/
def fromValueOptU32 (v : Json) : Except String (Option U32) :=
  match v with
  | .null => .ok none
  | v => (fromValueU32 v).map some

/-- `serde_json::from_value::<f32>`: any JSON number is accepted (converted
with `as f32`, abstracted as exact); non-numbers error. -/
def fromValueF32 (v : Json) : Except String F32 :=
  match v with
  | .num n => .ok n.toQ
  | _ => .error "invalid type, expected f32"

/-- `serde_json::from_value::<String>`. -/
def fromValueString (v : Json) : Except String String :=
  match v with
  | .str s => .ok s
  | _ => .error "invalid type, expected a string"

/-- Sequence a fallible element decoder over a list (serde's sequence
visitor). -/
def mapExcept (f : α → Except ε β) : List α → Except ε (List β)
  | [] => .ok []
  | a :: rest => do
    let b ← f a
    let bs ← mapExcept f rest
    .ok (b :: bs)

/-- `serde_json::from_value::<[f32; 2]>`: exactly two elements, each an
`f32`; an array of any other length (and any non-array) errors. -/
def fromValuePoint2d (v : Json) : Except String (F32 × F32) :=
  match v with
  | .arr [a, b] => do
    let x ← fromValueF32 a
    let y ← fromValueF32 b
    .ok (x, y)
  | _ => .error "invalid value, expected an array of length 2"

/-- `serde_json::from_value::<Vec<f32>>`. -/
def fromValueColor (v : Json) : Except String (List F32) :=
  match v with
  | .arr xs => mapExcept fromValueF32 xs
  | _ => .error "invalid type, expected a sequence"

/-- `InputValues<T>` (src/lib.rs:62-72). -/
structure InputValues (α : Type) where
  default : Option α
  min : Option α
  max : Option α
  identity : Option α

/-- `InputBool` (src/lib.rs:74-77). -/
structure InputBool where
  default : Option Bool

/-- `InputLong` (src/lib.rs:79-84). -/
structure InputLong where
  input_values : InputValues I32
  values : List I32
  labels : List String

/-- `InputAudio` (src/lib.rs:92-95). -/
structure InputAudio where
  num_samples : Option U32

/-- `InputAudioFft` (src/lib.rs:97-100). -/
structure InputAudioFft where
  num_columns : Option U32

/-- `InputType` (src/lib.rs:48-59). -/
inductive InputType where
  | event : InputType
  | bool : InputBool → InputType
  | long : InputLong → InputType
  | float : InputValues F32 → InputType
  | point2d : InputValues (F32 × F32) → InputType
  | color : InputValues (List F32) → InputType
  | image : InputType
  | audio : InputAudio → InputType
  | audioFft : InputAudioFft → InputType

/-- `Input` (src/lib.rs:40-45). -/
structure Input where
  name : String
  label : Option String
  ty : InputType

/-- `Pass` (src/lib.rs:126-138). -/
structure Pass where
  target : Option String
  persistent : Bool
  float : Bool
  width : Option String
  height : Option String

/-- `ImageImport` (src/lib.rs:141-145); `PathBuf` modelled as its string. -/
structure ImageImport where
  path : String

/-- `Isf` (src/lib.rs:21-37); the `BTreeMap` of imports is modelled as its
sorted association list. -/
structure Isf where
  isfvsn : Option String
  vsn : Option String
  description : Option String
  categories : List String
  inputs : List Input
  passes : List Pass
  imported : List (String × ImageImport)

/-- `InputDict` (src/lib.rs:103-123), the helper record for `Input`'s
serialize/deserialize. -/
structure InputDict where
  name : String
  label : Option String
  ty : String
  default : Option Json
  min : Option Json
  max : Option Json
  identity : Option Json
  values : List I32
  labels : List String

/-- Outcome of running a deserialization: an ordinary serde decode error, or
the thread panic raised by the `unimplemented!()` fallback arm. -/
inductive RunError where
  | de : String → RunError
  | panicUnimplemented : RunError

/-- `ParseError` (src/lib.rs:148-157): `MissingTopComment` or a wrapped
`serde_json` error. -/
inductive ParseError where
  | missingTopComment : ParseError
  | json : String → ParseError

/-- Decode a `#[serde(default)]`-style optional string field (used for
`LABEL`, `TARGET`, and the `Isf` version/description fields): missing or
`null` gives `None`, a string passes through, anything else errors. -/
def decodeOptString (kvs : List (String × Json)) (k : String) :
    Except String (Option String) :=
  match lookupKey kvs k with
  | none => .ok none
  | some .null => .ok none
  | some (.str s) => .ok (some s)
  | some _ => .error "invalid type, expected a string"

/-- Decode a required string field (`NAME`, `TYPE`). -/
def decodeReqString (kvs : List (String × Json)) (k : String) :
    Except String String :=
  match lookupKey kvs k with
  | none => .error ("missing field " ++ k)
  | some (.str s) => .ok s
  | some _ => .error "invalid type, expected a string"

/-- Decode a `#[serde(default)] Vec<_>` field: missing gives `[]`, an array
decodes elementwise, anything else (including `null`) errors. -/
def decodeVec (dec : Json → Except String α) (kvs : List (String × Json))
    (k : String) : Except String (List α) :=
  match lookupKey kvs k with
  | none => .ok []
  | some (.arr xs) => mapExcept dec xs
  | some _ => .error "invalid type, expected a sequence"

/-- The derived `Deserialize for InputDict`. -/
def decodeInputDict (kvs : List (String × Json)) : Except String InputDict := do
  let name ← decodeReqString kvs "NAME"
  let label ← decodeOptString kvs "LABEL"
  let ty ← decodeReqString kvs "TYPE"
  let values ← decodeVec fromValueI32 kvs "VALUES"
  let labels ← decodeVec fromValueString kvs "LABELS"
  .ok ⟨name, label, ty, getOptValue kvs "DEFAULT", getOptValue kvs "MIN",
       getOptValue kvs "MAX", getOptValue kvs "IDENTITY", values, labels⟩

/-- One arm of `InputValues::from_opts`: an absent optional value stays
`None`, a present one goes through `serde_json::from_value`. -/
def decOptJson (dec : Json → Except String α) : Option Json → Except String (Option α)
  | some v => (dec v).map some
  | none => .ok none

/-- `InputValues::from_opts` (src/lib.rs:160-191), generic over the
`serde_json::from_value` target decoder. -/
def InputValues.from_opts (dec : Json → Except String α)
    (d m x i : Option Json) : Except String (InputValues α) := do
  let d' ← decOptJson dec d
  let m' ← decOptJson dec m
  let x' ← decOptJson dec x
  let i' ← decOptJson dec i
  .ok ⟨d', m', x', i'⟩

/-- The inline boolean-default coercion in `Deserialize for Input`'s `bool`
arm (src/lib.rs:308-322). -/
def boolDefault : Option Json → Except String (Option Bool)
  | none => .ok none
  | some (.bool b) => .ok (some b)
  | some (.num (.uint n)) => .ok (some (n != 0))
  | some (.num (.float q)) => .ok (some (f64AsU64 q != 0))
  | some _ => .error "invalid type, expected a boolean"

/-- The `MAX` coercion in the `audio`/`audioFFT` arms
(src/lib.rs:348-364): an absent field gives `None`, a present value goes
through `serde_json::from_value::<Option<u32>>`. -/
def audioMax : Option Json → Except String (Option U32)
  | none => .ok none
  | some v => fromValueOptU32 v

/-- The `TYPE`-tag dispatch of `Deserialize for Input` (src/lib.rs:305-367);
the fallback arm for an unknown tag is `unimplemented!()`, a panic. -/
def inputFromDict (dict : InputDict) : Except RunError Input :=
  match dict.ty with
      | "event" => .ok ⟨dict.name, dict.label, .event⟩
      | "bool" =>
        match boolDefault dict.default with
        | .ok o => .ok ⟨dict.name, dict.label, .bool ⟨o⟩⟩
        | .error e => .error (.de e)
      | "long" =>
        match InputValues.from_opts fromValueI32 dict.default dict.min
            dict.max dict.identity with
        | .ok iv => .ok ⟨dict.name, dict.label,
            .long ⟨iv, dict.values, dict.labels⟩⟩
        | .error e => .error (.de e)
      | "float" =>
        match InputValues.from_opts fromValueF32 dict.default dict.min
            dict.max dict.identity with
        | .ok iv => .ok ⟨dict.name, dict.label, .float iv⟩
        | .error e => .error (.de e)
      | "point2D" =>
        match InputValues.from_opts fromValuePoint2d dict.default dict.min
            dict.max dict.identity with
        | .ok iv => .ok ⟨dict.name, dict.label, .point2d iv⟩
        | .error e => .error (.de e)
      | "color" =>
        match InputValues.from_opts fromValueColor dict.default dict.min
            dict.max dict.identity with
        | .ok iv => .ok ⟨dict.name, dict.label, .color iv⟩
        | .error e => .error (.de e)
      | "image" => .ok ⟨dict.name, dict.label, .image⟩
      | "audio" =>
        match audioMax dict.max with
        | .ok o => .ok ⟨dict.name, dict.label, .audio ⟨o⟩⟩
        | .error e => .error (.de e)
      | "audioFFT" =>
        match audioMax dict.max with
        | .ok o => .ok ⟨dict.name, dict.label, .audioFft ⟨o⟩⟩
        | .error e => .error (.de e)
      | _ => .error .panicUnimplemented

/-- `Deserialize for Input` (src/lib.rs:288-371): decode the flat
`InputDict`, then dispatch on the `TYPE` tag. -/
def decodeInput (v : Json) : Except RunError Input :=
  match v with
  | .obj kvs =>
    match decodeInputDict kvs with
    | .error e => .error (.de e)
    | .ok dict => inputFromDict dict
  | _ => .error (.de "invalid type, expected an input map")

/-- The derived `Deserialize for Pass`, with the `deserialize_with`
coercions applied to present `PERSISTENT`/`FLOAT`/`WIDTH`/`HEIGHT` values
and the declared defaults for missing ones. -/
def decodePass (v : Json) : Except String Pass :=
  match v with
  | .obj kvs => do
    let target ← decodeOptString kvs "TARGET"
    let persistent ← match lookupKey kvs "PERSISTENT" with
      | none => pure false
      | some w => deserialize_bool w
    let flt ← match lookupKey kvs "FLOAT" with
      | none => pure false
      | some w => deserialize_bool w
    let width ← match lookupKey kvs "WIDTH" with
      | none => pure none
      | some w => deserialize_opt_string w
    let height ← match lookupKey kvs "HEIGHT" with
      | none => pure none
      | some w => deserialize_opt_string w
    .ok ⟨target, persistent, flt, width, height⟩
  | _ => .error "invalid type, expected a pass map"

/-- The derived `Deserialize for ImageImport`: a map with a required string
`PATH`. -/
def decodeImageImport (v : Json) : Except String ImageImport :=
  match v with
  | .obj kvs =>
    match lookupKey kvs "PATH" with
    | none => .error "missing field PATH"
    | some (.str s) => .ok ⟨s⟩
    | some _ => .error "invalid type, expected a path string"
  | _ => .error "invalid type, expected an import map"

/-- `BTreeMap::insert` on the sorted association-list representation:
keeps keys strictly increasing, overwriting an equal key. -/
def btInsert (k : String) (a : ImageImport) :
    List (String × ImageImport) → List (String × ImageImport)
  | [] => [(k, a)]
  | (k', a') :: rest =>
    if k < k' then (k, a) :: (k', a') :: rest
    else if k = k' then (k, a) :: rest
    else (k', a') :: btInsert k a rest

/-- Build a `BTreeMap` by inserting entries in encounter order (serde's map
visitor; a repeated key overwrites). -/
def normalizeBT (l : List (String × ImageImport)) : List (String × ImageImport) :=
  l.foldl (fun m p => btInsert p.1 p.2 m) []

/-- Decode the `#[serde(default)] IMPORTED` field into the `BTreeMap`
model. -/
def decodeImported (kvs : List (String × Json)) :
    Except String (List (String × ImageImport)) :=
  match lookupKey kvs "IMPORTED" with
  | none => .ok []
  | some (.obj m) =>
    (mapExcept (fun p => (decodeImageImport p.2).map (fun im => (p.1, im))) m).map
      normalizeBT
  | some _ => .error "invalid type, expected a map"

/-- Lift an ordinary serde error into the run-outcome type. -/
def liftDe : Except String α → Except RunError α
  | .ok a => .ok a
  | .error e => .error (.de e)

/-- Decode the `#[serde(default)] INPUTS` field; element decoding can panic
(unknown `TYPE`), which propagates as a panic of the whole decode. -/
def decodeInputsField (kvs : List (String × Json)) : Except RunError (List Input) :=
  match lookupKey kvs "INPUTS" with
  | none => .ok []
  | some (.arr xs) => mapExcept decodeInput xs
  | some _ => .error (.de "invalid type, expected a sequence")

/-- The field decoding of the derived `Deserialize for Isf`
(src/lib.rs:21-37), applied to the entries of the top-level map. -/
def isfFromObj (kvs : List (String × Json)) : Except RunError Isf := do
  let isfvsn ← liftDe (decodeOptString kvs "ISFVSN")
  let vsn ← liftDe (decodeOptString kvs "VSN")
  let description ← liftDe (decodeOptString kvs "DESCRIPTION")
  let categories ← liftDe (decodeVec fromValueString kvs "CATEGORIES")
  let inputs ← decodeInputsField kvs
  let passes ← liftDe (decodeVec decodePass kvs "PASSES")
  let imported ← liftDe (decodeImported kvs)
  .ok ⟨isfvsn, vsn, description, categories, inputs, passes, imported⟩

/-- The derived `Deserialize for Isf` (src/lib.rs:21-37). -/
def decodeIsf (v : Json) : Except RunError Isf :=
  match v with
  | .obj kvs => isfFromObj kvs
  | _ => .error (.de "invalid type, expected a map")

/-- Encode an optional value, emitting `null` for `None` (the derived
`Serialize` has no `skip_serializing_if`, so absent options are serialized
as JSON `null`). -/
def optJson (f : α → Json) : Option α → Json
  | none => .null
  | some a => f a

/-- `impl From<i64> for serde_json::Number`: nonnegative values are stored
in the `u64` (`is_u64`) representation. -/
def jnumOfInt (i : Int) : JNum :=
  if 0 ≤ i then .uint i.toNat else .int i

/-- `Into<serde_json::Value>` for `i32`. -/
def i32Json (x : I32) : Json := .num (jnumOfInt x.val)

/-- `Into<serde_json::Value>` for `u32`. -/
def u32Json (n : U32) : Json := .num (.uint n.val)

/-- `Into<serde_json::Value>` for `f32` (finite, via `f64`). -/
def f32Json (q : F32) : Json := .num (.float q)

/-- `pt2_to_json_value` (src/lib.rs:230-232): a two-element JSON array. -/
def pt2_to_json_value (p : F32 × F32) : Json :=
  .arr [f32Json p.1, f32Json p.2]

/-- `Into<serde_json::Value>` for `Vec<f32>`. -/
def colorJson (l : List F32) : Json := .arr (l.map f32Json)

/-- The freshly-initialized `InputDict` of `Serialize for Input`
(src/lib.rs:218-228). -/
def emptyDict (name : String) (label : Option String) (ty : String) : InputDict :=
  ⟨name, label, ty, none, none, none, none, [], []⟩

/-- The `InputDict` built by `Serialize for Input` (src/lib.rs:211-285):
each variant writes only its own fields into the fresh dict. -/
def inputDictOf (inp : Input) : InputDict :=
  match inp.ty with
  | .event => emptyDict inp.name inp.label "event"
  | .bool t =>
    { emptyDict inp.name inp.label "bool" with
      default := t.default.map Json.bool }
  | .long t =>
    { emptyDict inp.name inp.label "long" with
      default := t.input_values.default.map i32Json
      min := t.input_values.min.map i32Json
      max := t.input_values.max.map i32Json
      identity := t.input_values.identity.map i32Json
      values := t.values
      labels := t.labels }
  | .float t =>
    { emptyDict inp.name inp.label "float" with
      default := t.default.map f32Json
      min := t.min.map f32Json
      max := t.max.map f32Json
      identity := t.identity.map f32Json }
  | .point2d t =>
    { emptyDict inp.name inp.label "point2D" with
      default := t.default.map pt2_to_json_value
      min := t.min.map pt2_to_json_value
      max := t.max.map pt2_to_json_value
      identity := t.identity.map pt2_to_json_value }
  | .color t =>
    { emptyDict inp.name inp.label "color" with
      default := t.default.map colorJson
      min := t.min.map colorJson
      max := t.max.map colorJson
      identity := t.identity.map colorJson }
  | .image => emptyDict inp.name inp.label "image"
  | .audio t =>
    { emptyDict inp.name inp.label "audio" with
      max := t.num_samples.map u32Json }
  | .audioFft t =>
    { emptyDict inp.name inp.label "audioFFT" with
      max := t.num_columns.map u32Json }

/-- The field list emitted by the derived `Serialize for InputDict`: every
field, in declaration order; `None` options as `null`, vectors as arrays. -/
def dictKvs (d : InputDict) : List (String × Json) :=
  [("NAME", .str d.name),
   ("LABEL", optJson .str d.label),
   ("TYPE", .str d.ty),
   ("DEFAULT", optJson id d.default),
   ("MIN", optJson id d.min),
   ("MAX", optJson id d.max),
   ("IDENTITY", optJson id d.identity),
   ("VALUES", .arr (d.values.map i32Json)),
   ("LABELS", .arr (d.labels.map Json.str))]

/-- The derived `Serialize for InputDict`. -/
def encodeInputDict (d : InputDict) : Json :=
  .obj (dictKvs d)

/-- `Serialize for Input` (src/lib.rs:211-285). -/
def encodeInput (inp : Input) : Json :=
  encodeInputDict (inputDictOf inp)

/-- The derived `Serialize for Pass`: every field emitted. -/
def encodePass (p : Pass) : Json :=
  .obj [("TARGET", optJson Json.str p.target),
        ("PERSISTENT", .bool p.persistent),
        ("FLOAT", .bool p.float),
        ("WIDTH", optJson Json.str p.width),
        ("HEIGHT", optJson Json.str p.height)]

/-- The derived `Serialize for ImageImport`. -/
def encodeImageImport (im : ImageImport) : Json :=
  .obj [("PATH", .str im.path)]

/-- The derived `Serialize for Isf`: every field emitted in declaration
order; `None` options as `null`, vectors as arrays, the import map as an
object. -/
def encodeIsf (c : Isf) : Json :=
  .obj [("ISFVSN", optJson Json.str c.isfvsn),
        ("VSN", optJson Json.str c.vsn),
        ("DESCRIPTION", optJson Json.str c.description),
        ("CATEGORIES", .arr (c.categories.map Json.str)),
        ("INPUTS", .arr (c.inputs.map encodeInput)),
        ("PASSES", .arr (c.passes.map encodePass)),
        ("IMPORTED", .obj (c.imported.map (fun p => (p.1, encodeImageImport p.2))))]

/-- The comment-opening marker. -/
def opL : List Char := ['/', '*']

/-- The comment-closing marker. -/
def clL : List Char := ['*', '/']

/-- Does `pat` occur at position `i` of `s`? -/
def occursAt (pat s : List Char) (i : Nat) : Bool :=
  pat.isPrefixOf (s.drop i)

/-- Worker for `findSub`. -/
def findSubAux (pat : List Char) : List Char → Nat → Option Nat
  | [], i => if pat.isEmpty then some i else none
  | c :: rest, i =>
    if pat.isPrefixOf (c :: rest) then some i else findSubAux pat rest (i + 1)

/-- Rust `str::find` for a substring pattern: the first position at which
`pat` occurs in `hay`. -/
def findSub (hay pat : List Char) : Option Nat :=
  findSubAux pat hay 0

/-- Rust `str::trim` on the character-list model. -/
def trimChars (l : List Char) : List Char :=
  ((l.dropWhile Char.isWhitespace).reverse.dropWhile Char.isWhitespace).reverse

/-- `top_comment_contents` (src/lib.rs:384-388): the trimmed text strictly
between the first comment-opening marker and the first closing marker after
it. -/
def top_comment_contents (src : List Char) : Option (List Char) :=
  match findSub src opL with
  | none => none
  | some s0 =>
    match findSub (src.drop (s0 + 2)) clL with
    | none => none
    | some e => some (trimChars ((src.drop (s0 + 2)).take e))

/-- `parse` (src/lib.rs:377-380), parameterized by the JSON text decoding
`serde_json::from_str::<Isf>` of the extracted comment contents: a missing
comment is the `MissingTopComment` error, and a JSON decode failure is
wrapped in the distinct `Json` error kind. -/
def parse (fromStr : List Char → Except String Isf) (src : List Char) :
    Except ParseError Isf :=
  match top_comment_contents src with
  | none => .error .missingTopComment
  | some s =>
    match fromStr s with
    | .ok isf => .ok isf
    | .error e => .error (.json e)

/-! ### Helper lemmas -/

theorem f64AsU64_ne_zero_of_one_le (q : ℚ) (h : 1 ≤ q) : (f64AsU64 q != 0) = true := by
  have h1 : 1 ≤ q.floor := Rat.le_floor.mpr (by exact_mod_cast h)
  unfold f64AsU64
  simp only [bne_iff_ne, ne_eq]
  omega

theorem f64AsU64_zero_of_lt_one (q : ℚ) (h : q < 1) : (f64AsU64 q != 0) = false := by
  have h1 : q.floor < 1 := by
    by_contra hc
    push_neg at hc
    have h2 : (1 : ℚ) ≤ q := by exact_mod_cast Rat.le_floor.mp hc
    linarith
  unfold f64AsU64
  simp only [bne_eq_false_iff_eq]
  omega

/-! ### Claim theorems -/

/-- C1: the spec demands that an unrecognized `TYPE` string fail with a
reported decode error (`MalformedMetadata`), never an unhandled-case fault.
The code instead reaches the `_ => unimplemented!()` arm
(src/lib.rs:366), a thread panic — contradicting both the adjacent
`TODO: Return serde err` comment and the repository's own test
`does_not_panic_on_unknown_type` (tests/correctness.rs), which asserts
`Err(ParseError::Json { .. })`.  This theorem evaluates the code at the
failing inputs: the decode outcome is the panic, not a decode error. -/
theorem C1_unknown_type_tag_panics :
    decodeInput (Json.obj [("NAME", Json.str "x"),
        ("TYPE", Json.str "not_a_real_type")]) =
      Except.error RunError.panicUnimplemented ∧
    decodeIsf (Json.obj [("INPUTS", Json.arr [Json.obj
        [("NAME", Json.str "panic_causer"), ("TYPE", Json.str "panic_type")]])]) =
      Except.error RunError.panicUnimplemented := ⟨rfl, rfl⟩

/-- C2: the claim (and the repository's own `does_not_emit_extra_fields`
test) requires that encoding a decoded container reproduce only the fields
implied by populated optional data.  The derived `Serialize` impls carry no
`skip_serializing_if`, so every absent option is emitted as a JSON `null`
and every empty vector/map as `[]`/an empty object.  This theorem evaluates
the code on the spec's concrete scenario: the container decoded from
`ISFVSN "2"` with one `image` input re-encodes with `VSN`, `DESCRIPTION`,
`LABEL`, `DEFAULT`, `MIN`, `MAX`, `IDENTITY` present as `null` and
`CATEGORIES`, `VALUES`, `LABELS`, `PASSES`, `IMPORTED` present but empty,
contrary to the claim. -/
theorem C2_encode_emits_null_and_empty_fields :
    decodeIsf (Json.obj [("ISFVSN", Json.str "2"),
        ("INPUTS", Json.arr [Json.obj [("NAME", Json.str "inputImage"),
          ("TYPE", Json.str "image")]])]) =
      Except.ok ⟨some "2", none, none, [],
        [⟨"inputImage", none, InputType.image⟩], [], []⟩ ∧
    encodeIsf ⟨some "2", none, none, [],
        [⟨"inputImage", none, InputType.image⟩], [], []⟩ =
      Json.obj [("ISFVSN", Json.str "2"),
        ("VSN", Json.null),
        ("DESCRIPTION", Json.null),
        ("CATEGORIES", Json.arr []),
        ("INPUTS", Json.arr [Json.obj [("NAME", Json.str "inputImage"),
          ("LABEL", Json.null), ("TYPE", Json.str "image"),
          ("DEFAULT", Json.null), ("MIN", Json.null), ("MAX", Json.null),
          ("IDENTITY", Json.null), ("VALUES", Json.arr []),
          ("LABELS", Json.arr [])]]),
        ("PASSES", Json.arr []),
        ("IMPORTED", Json.obj [])] := ⟨rfl, rfl⟩

/-- C5: string-or-number coercion of a Pass's WIDTH/HEIGHT field: `null`
(or an absent field) maps to the absent value, a JSON number maps to its
decimal string rendering (`640` and `"640"` both decode to `"640"`), a
string passes through unchanged, and every other shape is a decode
error. -/
theorem C5_width_height_string_or_number_coercion :
    deserialize_opt_string Json.null = Except.ok none ∧
    (∀ n, deserialize_opt_string (Json.num n) =
      Except.ok (some (jnumToString n))) ∧
    (∀ s, deserialize_opt_string (Json.str s) = Except.ok (some s)) ∧
    (∀ b, deserialize_opt_string (Json.bool b) =
      Except.error "invalid type, expected a string or number") ∧
    (∀ xs, deserialize_opt_string (Json.arr xs) =
      Except.error "invalid type, expected a string or number") ∧
    (∀ kvs, deserialize_opt_string (Json.obj kvs) =
      Except.error "invalid type, expected a string or number") ∧
    decodePass (Json.obj [("WIDTH", Json.num (JNum.uint 640))]) =
      Except.ok ⟨none, false, false, some "640", none⟩ ∧
    decodePass (Json.obj [("WIDTH", Json.str "640")]) =
      Except.ok ⟨none, false, false, some "640", none⟩ ∧
    decodePass (Json.obj [("WIDTH", Json.null)]) =
      Except.ok ⟨none, false, false, none, none⟩ ∧
    decodePass (Json.obj []) =
      Except.ok ⟨none, false, false, none, none⟩ :=
  ⟨rfl, fun _ => rfl, fun _ => rfl, fun _ => rfl, fun _ => rfl, fun _ => rfl,
   rfl, rfl, rfl, rfl⟩

/-! ### Normal-form lemmas for the tag dispatch -/

theorem decodeInput_obj (kvs : List (String × Json)) (d : InputDict)
    (h : decodeInputDict kvs = Except.ok d) :
    decodeInput (Json.obj kvs) = inputFromDict d := by
  show (match decodeInputDict kvs with
    | .error e => .error (.de e)
    | .ok dict => inputFromDict dict) = inputFromDict d
  rw [h]

theorem inputFromDict_event (d : InputDict) (h : d.ty = "event") :
    inputFromDict d = Except.ok ⟨d.name, d.label, InputType.event⟩ := by
  unfold inputFromDict
  rw [h]
  rfl

theorem inputFromDict_image (d : InputDict) (h : d.ty = "image") :
    inputFromDict d = Except.ok ⟨d.name, d.label, InputType.image⟩ := by
  unfold inputFromDict
  rw [h]
  rfl

theorem inputFromDict_bool (d : InputDict) (h : d.ty = "bool") :
    inputFromDict d = liftDe ((boolDefault d.default).map
      (fun o => ⟨d.name, d.label, InputType.bool ⟨o⟩⟩)) := by
  unfold inputFromDict
  rw [h]
  cases boolDefault d.default <;> rfl

theorem inputFromDict_long (d : InputDict) (h : d.ty = "long") :
    inputFromDict d = liftDe
      ((InputValues.from_opts fromValueI32 d.default d.min d.max d.identity).map
        (fun iv => ⟨d.name, d.label, InputType.long ⟨iv, d.values, d.labels⟩⟩)) := by
  unfold inputFromDict
  rw [h]
  cases InputValues.from_opts fromValueI32 d.default d.min d.max d.identity <;> rfl

theorem inputFromDict_float (d : InputDict) (h : d.ty = "float") :
    inputFromDict d = liftDe
      ((InputValues.from_opts fromValueF32 d.default d.min d.max d.identity).map
        (fun iv => ⟨d.name, d.label, InputType.float iv⟩)) := by
  unfold inputFromDict
  rw [h]
  cases InputValues.from_opts fromValueF32 d.default d.min d.max d.identity <;> rfl

theorem inputFromDict_point2d (d : InputDict) (h : d.ty = "point2D") :
    inputFromDict d = liftDe
      ((InputValues.from_opts fromValuePoint2d d.default d.min d.max d.identity).map
        (fun iv => ⟨d.name, d.label, InputType.point2d iv⟩)) := by
  unfold inputFromDict
  rw [h]
  cases InputValues.from_opts fromValuePoint2d d.default d.min d.max d.identity <;> rfl

theorem inputFromDict_color (d : InputDict) (h : d.ty = "color") :
    inputFromDict d = liftDe
      ((InputValues.from_opts fromValueColor d.default d.min d.max d.identity).map
        (fun iv => ⟨d.name, d.label, InputType.color iv⟩)) := by
  unfold inputFromDict
  rw [h]
  cases InputValues.from_opts fromValueColor d.default d.min d.max d.identity <;> rfl

theorem inputFromDict_audio (d : InputDict) (h : d.ty = "audio") :
    inputFromDict d = liftDe ((audioMax d.max).map
      (fun o => ⟨d.name, d.label, InputType.audio ⟨o⟩⟩)) := by
  unfold inputFromDict
  rw [h]
  cases audioMax d.max <;> rfl

theorem inputFromDict_audioFft (d : InputDict) (h : d.ty = "audioFFT") :
    inputFromDict d = liftDe ((audioMax d.max).map
      (fun o => ⟨d.name, d.label, InputType.audioFft ⟨o⟩⟩)) := by
  unfold inputFromDict
  rw [h]
  cases audioMax d.max <;> rfl

/-! ### Normal-form lemmas for `from_opts` -/

theorem from_opts_ok (dec : Json → Except String α) (d m x i : Option Json)
    (d' m' x' i' : Option α)
    (hd : decOptJson dec d = Except.ok d') (hm : decOptJson dec m = Except.ok m')
    (hx : decOptJson dec x = Except.ok x') (hi : decOptJson dec i = Except.ok i') :
    InputValues.from_opts dec d m x i = Except.ok ⟨d', m', x', i'⟩ := by
  unfold InputValues.from_opts
  rw [hd, hm, hx, hi]
  rfl

theorem from_opts_errD (dec : Json → Except String α) (d m x i : Option Json)
    (e : String) (hd : decOptJson dec d = Except.error e) :
    InputValues.from_opts dec d m x i = Except.error e := by
  unfold InputValues.from_opts
  rw [hd]
  rfl

theorem from_opts_errM (dec : Json → Except String α) (d m x i : Option Json)
    (d' : Option α) (e : String)
    (hd : decOptJson dec d = Except.ok d') (hm : decOptJson dec m = Except.error e) :
    InputValues.from_opts dec d m x i = Except.error e := by
  unfold InputValues.from_opts
  rw [hd, hm]
  rfl

theorem from_opts_errX (dec : Json → Except String α) (d m x i : Option Json)
    (d' m' : Option α) (e : String)
    (hd : decOptJson dec d = Except.ok d') (hm : decOptJson dec m = Except.ok m')
    (hx : decOptJson dec x = Except.error e) :
    InputValues.from_opts dec d m x i = Except.error e := by
  unfold InputValues.from_opts
  rw [hd, hm, hx]
  rfl

theorem from_opts_errI (dec : Json → Except String α) (d m x i : Option Json)
    (d' m' x' : Option α) (e : String)
    (hd : decOptJson dec d = Except.ok d') (hm : decOptJson dec m = Except.ok m')
    (hx : decOptJson dec x = Except.ok x') (hi : decOptJson dec i = Except.error e) :
    InputValues.from_opts dec d m x i = Except.error e := by
  unfold InputValues.from_opts
  rw [hd, hm, hx, hi]
  rfl

/-- C4 counterexample: the claim states that boolean coercion "accepts any
integer JSON number, mapping every nonzero value to true and zero to
false"; the code rejects the nonzero negative integer number `-1` with a
decode error, because an `i64`-stored number satisfies neither the
`is_u64` nor the `is_f64` guard and falls through to the strict boolean
parse (src/lib.rs:395-403). -/
theorem C4_counterexample_negative_int_is_error :
    deserialize_bool (Json.num (JNum.int (-1))) =
      Except.error "invalid type, expected a boolean" := rfl

/-- C4 (amended): boolean coercion accepts a native boolean unchanged;
accepts a nonnegative (`u64`-stored) integer JSON number, mapping nonzero
to true and zero to false; rejects a negative integer JSON number with a
decode error; accepts a floating-point JSON number through Rust's
saturating `as u64` cast (so values below 1 — including all negative
values — map to false and values at or above 1 map to true); and reports a
decode error for every other value shape.  The final conjunct shows the
inline coercion applied to a `bool` input's `DEFAULT` agrees with
`deserialize_bool` on every present non-null value. -/
theorem C4_amended_bool_coercion :
    (∀ b, deserialize_bool (Json.bool b) = Except.ok b) ∧
    (∀ n : Nat, deserialize_bool (Json.num (JNum.uint n)) = Except.ok (n != 0)) ∧
    (∀ i : Int, i < 0 → deserialize_bool (Json.num (JNum.int i)) =
      Except.error "invalid type, expected a boolean") ∧
    (∀ q : ℚ, 1 ≤ q → deserialize_bool (Json.num (JNum.float q)) = Except.ok true) ∧
    (∀ q : ℚ, q < 1 → deserialize_bool (Json.num (JNum.float q)) = Except.ok false) ∧
    (deserialize_bool Json.null = Except.error "invalid type, expected a boolean") ∧
    (∀ s, deserialize_bool (Json.str s) =
      Except.error "invalid type, expected a boolean") ∧
    (∀ xs, deserialize_bool (Json.arr xs) =
      Except.error "invalid type, expected a boolean") ∧
    (∀ kvs, deserialize_bool (Json.obj kvs) =
      Except.error "invalid type, expected a boolean") ∧
    (∀ (name : String) (v : Json), v ≠ Json.null →
      decodeInput (Json.obj [("NAME", Json.str name), ("TYPE", Json.str "bool"),
          ("DEFAULT", v)]) =
        liftDe ((deserialize_bool v).map
          (fun b => ⟨name, none, InputType.bool ⟨some b⟩⟩))) := by
  refine ⟨fun b => rfl, fun n => rfl, fun i _ => rfl, ?_, ?_, rfl, fun s => rfl,
    fun xs => rfl, fun kvs => rfl, ?_⟩
  · intro q h
    show Except.ok (f64AsU64 q != 0) = Except.ok true
    rw [f64AsU64_ne_zero_of_one_le q h]
  · intro q h
    show Except.ok (f64AsU64 q != 0) = Except.ok false
    rw [f64AsU64_zero_of_lt_one q h]
  · intro name v hv
    cases v with
    | null => exact absurd rfl hv
    | num n => cases n <;> rfl
    | bool b => rfl
    | str s => rfl
    | arr xs => rfl
    | obj kvs => rfl

/-- Witness for the amended C4 at concrete inputs. -/
theorem C4_amended_witness :
    deserialize_bool (Json.num (JNum.int (-5))) =
      Except.error "invalid type, expected a boolean" ∧
    deserialize_bool (Json.num (JNum.float ((7 : ℚ) / 2))) = Except.ok true ∧
    deserialize_bool (Json.num (JNum.float (-(7 : ℚ) / 2))) = Except.ok false ∧
    decodeInput (Json.obj [("NAME", Json.str "b"), ("TYPE", Json.str "bool"),
        ("DEFAULT", Json.str "nope")]) =
      liftDe ((deserialize_bool (Json.str "nope")).map
        (fun b => ⟨"b", none, InputType.bool ⟨some b⟩⟩)) :=
  ⟨C4_amended_bool_coercion.2.2.1 (-5) (by decide),
   C4_amended_bool_coercion.2.2.2.1 ((7 : ℚ) / 2) (by norm_num),
   C4_amended_bool_coercion.2.2.2.2.1 (-(7 : ℚ) / 2) (by norm_num),
   C4_amended_bool_coercion.2.2.2.2.2.2.2.2.2 "b" (Json.str "nope")
     (fun h => Json.noConfusion h)⟩

/-- C6: for `TYPE "audio"` a present wire `MAX` is decoded as a `u32` into
the sample-count field, and for `TYPE "audioFFT"` into the column-count
field; conversely, encoding an Audio/AudioFFT variant writes the set
capacity back under the `MAX` key (and no other key). -/
theorem C6_audio_max_capacity_mapping (name : String) (label : Option String)
    (n : Nat) (h : n < 2 ^ 32) (m : U32) :
    decodeInput (Json.obj [("NAME", Json.str name), ("TYPE", Json.str "audio"),
        ("MAX", Json.num (JNum.uint n))]) =
      Except.ok ⟨name, none, InputType.audio ⟨some ⟨n, h⟩⟩⟩ ∧
    decodeInput (Json.obj [("NAME", Json.str name), ("TYPE", Json.str "audioFFT"),
        ("MAX", Json.num (JNum.uint n))]) =
      Except.ok ⟨name, none, InputType.audioFft ⟨some ⟨n, h⟩⟩⟩ ∧
    encodeInput ⟨name, label, InputType.audio ⟨some m⟩⟩ =
      Json.obj [("NAME", Json.str name), ("LABEL", optJson Json.str label),
        ("TYPE", Json.str "audio"), ("DEFAULT", Json.null), ("MIN", Json.null),
        ("MAX", Json.num (JNum.uint m.val)), ("IDENTITY", Json.null),
        ("VALUES", Json.arr []), ("LABELS", Json.arr [])] ∧
    encodeInput ⟨name, label, InputType.audioFft ⟨some m⟩⟩ =
      Json.obj [("NAME", Json.str name), ("LABEL", optJson Json.str label),
        ("TYPE", Json.str "audioFFT"), ("DEFAULT", Json.null), ("MIN", Json.null),
        ("MAX", Json.num (JNum.uint m.val)), ("IDENTITY", Json.null),
        ("VALUES", Json.arr []), ("LABELS", Json.arr [])] := by
  have hu : fromValueU32 (Json.num (JNum.uint n)) = Except.ok ⟨n, h⟩ := dif_pos h
  have hmax : audioMax (some (Json.num (JNum.uint n))) = Except.ok (some ⟨n, h⟩) := by
    show (fromValueU32 (Json.num (JNum.uint n))).map some = _
    rw [hu]
    rfl
  refine ⟨?_, ?_, rfl, rfl⟩
  · rw [decodeInput_obj [("NAME", Json.str name), ("TYPE", Json.str "audio"),
        ("MAX", Json.num (JNum.uint n))] ⟨name, none, "audio", none, none,
        some (Json.num (JNum.uint n)), none, [], []⟩ rfl,
      inputFromDict_audio _ rfl, hmax]
    rfl
  · rw [decodeInput_obj [("NAME", Json.str name), ("TYPE", Json.str "audioFFT"),
        ("MAX", Json.num (JNum.uint n))] ⟨name, none, "audioFFT", none, none,
        some (Json.num (JNum.uint n)), none, [], []⟩ rfl,
      inputFromDict_audioFft _ rfl, hmax]
    rfl

/-- Witness for C6 at a concrete capacity. -/
theorem C6_witness :
    decodeInput (Json.obj [("NAME", Json.str "mic"), ("TYPE", Json.str "audio"),
        ("MAX", Json.num (JNum.uint 512))]) =
      Except.ok ⟨"mic", none, InputType.audio ⟨some ⟨512, by decide⟩⟩⟩ ∧
    encodeInput ⟨"mic", none, InputType.audioFft ⟨some ⟨512, by decide⟩⟩⟩ =
      Json.obj [("NAME", Json.str "mic"), ("LABEL", optJson Json.str none),
        ("TYPE", Json.str "audioFFT"), ("DEFAULT", Json.null), ("MIN", Json.null),
        ("MAX", Json.num (JNum.uint 512)), ("IDENTITY", Json.null),
        ("VALUES", Json.arr []), ("LABELS", Json.arr [])] :=
  ⟨(C6_audio_max_capacity_mapping "mic" none 512 (by decide) ⟨512, by decide⟩).1,
   (C6_audio_max_capacity_mapping "mic" none 512 (by decide) ⟨512, by decide⟩).2.2.2⟩

/-- A `[f32; 2]` target rejects a JSON array of any length other than 2. -/
theorem fromValuePoint2d_wrong_len (xs : List Json) (h : xs.length ≠ 2) :
    fromValuePoint2d (Json.arr xs) =
      Except.error "invalid value, expected an array of length 2" := by
  match xs with
  | [] => rfl
  | [a] => rfl
  | [a, b] => exact absurd rfl h
  | a :: b :: c :: t => rfl

/-- C8: for `TYPE "point2D"` each of `DEFAULT`/`MIN`/`MAX`/`IDENTITY`
present on the wire is decoded as a 2-element `f32` array; a JSON array of
any other length in any of those positions is a decode error; and a set
Point2D value encodes as a 2-element JSON array of numbers (not an
object). -/
theorem C8_point2d_two_element_arrays (name : String) (xs : List Json)
    (hlen : xs.length ≠ 2) (n1 n2 : JNum) (x y : F32) :
    decodeInput (Json.obj [("NAME", Json.str name), ("TYPE", Json.str "point2D"),
        ("DEFAULT", Json.arr xs)]) =
      Except.error (RunError.de "invalid value, expected an array of length 2") ∧
    decodeInput (Json.obj [("NAME", Json.str name), ("TYPE", Json.str "point2D"),
        ("MIN", Json.arr xs)]) =
      Except.error (RunError.de "invalid value, expected an array of length 2") ∧
    decodeInput (Json.obj [("NAME", Json.str name), ("TYPE", Json.str "point2D"),
        ("MAX", Json.arr xs)]) =
      Except.error (RunError.de "invalid value, expected an array of length 2") ∧
    decodeInput (Json.obj [("NAME", Json.str name), ("TYPE", Json.str "point2D"),
        ("IDENTITY", Json.arr xs)]) =
      Except.error (RunError.de "invalid value, expected an array of length 2") ∧
    decodeInput (Json.obj [("NAME", Json.str name), ("TYPE", Json.str "point2D"),
        ("DEFAULT", Json.arr [Json.num n1, Json.num n2]),
        ("MIN", Json.arr [Json.num n2, Json.num n1])]) =
      Except.ok ⟨name, none, InputType.point2d
        ⟨some (n1.toQ, n2.toQ), some (n2.toQ, n1.toQ), none, none⟩⟩ ∧
    encodeInput ⟨name, none, InputType.point2d ⟨some (x, y), none, none, none⟩⟩ =
      Json.obj [("NAME", Json.str name), ("LABEL", Json.null),
        ("TYPE", Json.str "point2D"),
        ("DEFAULT", Json.arr [Json.num (JNum.float x), Json.num (JNum.float y)]),
        ("MIN", Json.null), ("MAX", Json.null), ("IDENTITY", Json.null),
        ("VALUES", Json.arr []), ("LABELS", Json.arr [])] := by
  have herr : decOptJson fromValuePoint2d (some (Json.arr xs)) =
      Except.error "invalid value, expected an array of length 2" := by
    show (fromValuePoint2d (Json.arr xs)).map some = _
    rw [fromValuePoint2d_wrong_len xs hlen]
    rfl
  refine ⟨?_, ?_, ?_, ?_, rfl, rfl⟩
  · rw [decodeInput_obj [("NAME", Json.str name), ("TYPE", Json.str "point2D"),
        ("DEFAULT", Json.arr xs)] ⟨name, none, "point2D",
        some (Json.arr xs), none, none, none, [], []⟩ rfl,
      inputFromDict_point2d _ rfl,
      from_opts_errD _ _ _ _ _ _ herr]
    rfl
  · rw [decodeInput_obj [("NAME", Json.str name), ("TYPE", Json.str "point2D"),
        ("MIN", Json.arr xs)] ⟨name, none, "point2D",
        none, some (Json.arr xs), none, none, [], []⟩ rfl,
      inputFromDict_point2d _ rfl,
      from_opts_errM fromValuePoint2d none (some (Json.arr xs)) none none
        none _ rfl herr]
    rfl
  · rw [decodeInput_obj [("NAME", Json.str name), ("TYPE", Json.str "point2D"),
        ("MAX", Json.arr xs)] ⟨name, none, "point2D",
        none, none, some (Json.arr xs), none, [], []⟩ rfl,
      inputFromDict_point2d _ rfl,
      from_opts_errX fromValuePoint2d none none (some (Json.arr xs)) none
        none none _ rfl rfl herr]
    rfl
  · rw [decodeInput_obj [("NAME", Json.str name), ("TYPE", Json.str "point2D"),
        ("IDENTITY", Json.arr xs)] ⟨name, none, "point2D",
        none, none, none, some (Json.arr xs), [], []⟩ rfl,
      inputFromDict_point2d _ rfl,
      from_opts_errI fromValuePoint2d none none none (some (Json.arr xs))
        none none none _ rfl rfl rfl herr]
    rfl

/-- Witness for C8 at concrete inputs. -/
theorem C8_witness :
    decodeInput (Json.obj [("NAME", Json.str "pt"), ("TYPE", Json.str "point2D"),
        ("DEFAULT", Json.arr [Json.num (JNum.uint 1)])]) =
      Except.error (RunError.de "invalid value, expected an array of length 2") ∧
    decodeInput (Json.obj [("NAME", Json.str "pt"), ("TYPE", Json.str "point2D"),
        ("DEFAULT", Json.arr [Json.num (JNum.uint 1), Json.num (JNum.uint 2)]),
        ("MIN", Json.arr [Json.num (JNum.uint 2), Json.num (JNum.uint 1)])]) =
      Except.ok ⟨"pt", none, InputType.point2d
        ⟨some ((JNum.uint 1).toQ, (JNum.uint 2).toQ),
         some ((JNum.uint 2).toQ, (JNum.uint 1).toQ), none, none⟩⟩ :=
  ⟨(C8_point2d_two_element_arrays "pt" [Json.num (JNum.uint 1)] (by decide)
      (JNum.uint 1) (JNum.uint 2) 0 0).1,
   (C8_point2d_two_element_arrays "pt" [Json.num (JNum.uint 1)] (by decide)
      (JNum.uint 1) (JNum.uint 2) 0 0).2.2.2.2.1⟩

/-- C10: a present `MAX` on an `audio`/`audioFFT` input holding a negative
integer JSON number, or any floating-point JSON number (in particular every
fractional one), is a decode error: the capacity is coerced strictly as a
`u32`, with none of the lenient acceptance that boolean coercion
provides. -/
theorem C10_audio_max_strict_u32 (name : String) (i : Int) (hi : i < 0) (q : ℚ) :
    decodeInput (Json.obj [("NAME", Json.str name), ("TYPE", Json.str "audio"),
        ("MAX", Json.num (JNum.int i))]) =
      Except.error (RunError.de "invalid value, out of range for u32") ∧
    decodeInput (Json.obj [("NAME", Json.str name), ("TYPE", Json.str "audioFFT"),
        ("MAX", Json.num (JNum.int i))]) =
      Except.error (RunError.de "invalid value, out of range for u32") ∧
    decodeInput (Json.obj [("NAME", Json.str name), ("TYPE", Json.str "audio"),
        ("MAX", Json.num (JNum.float q))]) =
      Except.error (RunError.de "invalid type, expected u32") ∧
    decodeInput (Json.obj [("NAME", Json.str name), ("TYPE", Json.str "audioFFT"),
        ("MAX", Json.num (JNum.float q))]) =
      Except.error (RunError.de "invalid type, expected u32") := by
  have hni : ¬(0 ≤ i ∧ i < 2 ^ 32) := by omega
  have hu : fromValueU32 (Json.num (JNum.int i)) =
      Except.error "invalid value, out of range for u32" := dif_neg hni
  have hmaxi : audioMax (some (Json.num (JNum.int i))) =
      Except.error "invalid value, out of range for u32" := by
    show (fromValueU32 (Json.num (JNum.int i))).map some = _
    rw [hu]
    rfl
  refine ⟨?_, ?_, ?_, ?_⟩
  · rw [decodeInput_obj [("NAME", Json.str name), ("TYPE", Json.str "audio"),
        ("MAX", Json.num (JNum.int i))] ⟨name, none, "audio", none, none,
        some (Json.num (JNum.int i)), none, [], []⟩ rfl,
      inputFromDict_audio _ rfl, hmaxi]
    rfl
  · rw [decodeInput_obj [("NAME", Json.str name), ("TYPE", Json.str "audioFFT"),
        ("MAX", Json.num (JNum.int i))] ⟨name, none, "audioFFT", none, none,
        some (Json.num (JNum.int i)), none, [], []⟩ rfl,
      inputFromDict_audioFft _ rfl, hmaxi]
    rfl
  · rw [decodeInput_obj [("NAME", Json.str name), ("TYPE", Json.str "audio"),
        ("MAX", Json.num (JNum.float q))] ⟨name, none, "audio", none, none,
        some (Json.num (JNum.float q)), none, [], []⟩ rfl,
      inputFromDict_audio _ rfl]
    rfl
  · rw [decodeInput_obj [("NAME", Json.str name), ("TYPE", Json.str "audioFFT"),
        ("MAX", Json.num (JNum.float q))] ⟨name, none, "audioFFT", none, none,
        some (Json.num (JNum.float q)), none, [], []⟩ rfl,
      inputFromDict_audioFft _ rfl]
    rfl

/-- Witness for C10 at concrete inputs. -/
theorem C10_witness :
    decodeInput (Json.obj [("NAME", Json.str "snd"), ("TYPE", Json.str "audio"),
        ("MAX", Json.num (JNum.int (-3)))]) =
      Except.error (RunError.de "invalid value, out of range for u32") ∧
    decodeInput (Json.obj [("NAME", Json.str "snd"), ("TYPE", Json.str "audioFFT"),
        ("MAX", Json.num (JNum.float ((3 : ℚ) / 2)))]) =
      Except.error (RunError.de "invalid type, expected u32") :=
  ⟨(C10_audio_max_strict_u32 "snd" (-3) (by decide) ((3 : ℚ) / 2)).1,
   (C10_audio_max_strict_u32 "snd" (-3) (by decide) ((3 : ℚ) / 2)).2.2.2⟩

/-! ### Characterization of the substring search -/

theorem findSubAux_shift (pat l : List Char) (i : Nat) :
    findSubAux pat l i = (findSubAux pat l 0).map (fun j => j + i) := by
  induction l generalizing i with
  | nil =>
    by_cases h : pat.isEmpty <;> simp [findSubAux, h]
  | cons c rest ih =>
    by_cases h : pat.isPrefixOf (c :: rest)
    · simp [findSubAux, h]
    · simp only [findSubAux, h, if_false]
      rw [ih (i + 1), ih 1]
      cases findSubAux pat rest 0 with
      | none => rfl
      | some a =>
        show some (a + (i + 1)) = some ((a + 1) + i)
        exact congrArg some (by omega)

theorem findSub_nil (pat : List Char) :
    findSub [] pat = if pat.isEmpty then some 0 else none := rfl

theorem findSub_cons (c : Char) (rest pat : List Char) :
    findSub (c :: rest) pat =
      if pat.isPrefixOf (c :: rest) then some 0
      else (findSub rest pat).map (fun j => j + 1) := by
  unfold findSub
  by_cases h : pat.isPrefixOf (c :: rest)
  · simp [findSubAux, h]
  · simp only [findSubAux, h, if_false]
    exact findSubAux_shift pat rest 1

theorem occursAt_nil_of_ne_empty (pat : List Char) (h : pat.isEmpty = false)
    (i : Nat) : occursAt pat [] i = false := by
  unfold occursAt
  rw [List.drop_nil]
  cases pat with
  | nil => simp at h
  | cons p ps => rfl

theorem occursAt_cons_succ (pat : List Char) (c : Char) (rest : List Char)
    (i : Nat) : occursAt pat (c :: rest) (i + 1) = occursAt pat rest i := rfl

theorem bool_eq_false_of_ne_true {b : Bool} (h : ¬b = true) : b = false := by
  cases b
  · rfl
  · exact absurd rfl h

/-- Soundness of a failed search: no occurrence anywhere. -/
theorem findSub_none_no_occurrence (hay pat : List Char)
    (h : findSub hay pat = none) : ∀ i, occursAt pat hay i = false := by
  induction hay with
  | nil =>
    intro i
    rw [findSub_nil] at h
    by_cases hp : pat.isEmpty
    · rw [hp] at h
      simp at h
    · exact occursAt_nil_of_ne_empty pat (by simpa using hp) i
  | cons c rest ih =>
    rw [findSub_cons] at h
    by_cases hp : pat.isPrefixOf (c :: rest)
    · rw [if_pos hp] at h
      simp at h
    · rw [if_neg hp] at h
      have hrest : findSub rest pat = none := by
        cases hf : findSub rest pat with
        | none => rfl
        | some a => rw [hf] at h; simp at h
      intro i
      cases i with
      | zero =>
        show pat.isPrefixOf (c :: rest) = false
        exact bool_eq_false_of_ne_true hp
      | succ j =>
        rw [occursAt_cons_succ]
        exact ih hrest j

/-- Soundness of a successful search: the pattern occurs at the reported
position. -/
theorem findSub_some_occurs (hay pat : List Char) (j : Nat)
    (h : findSub hay pat = some j) : occursAt pat hay j = true := by
  induction hay generalizing j with
  | nil =>
    rw [findSub_nil] at h
    by_cases hp : pat.isEmpty
    · rw [if_pos hp] at h
      cases h
      unfold occursAt
      rw [List.drop_nil]
      cases pat with
      | nil => rfl
      | cons p ps => simp at hp
    · rw [if_neg hp] at h
      cases h
  | cons c rest ih =>
    rw [findSub_cons] at h
    by_cases hp : pat.isPrefixOf (c :: rest)
    · rw [if_pos hp] at h
      cases h
      show pat.isPrefixOf (c :: rest) = true
      exact hp
    · rw [if_neg hp] at h
      cases hf : findSub rest pat with
      | none => rw [hf] at h; cases h
      | some a =>
        rw [hf] at h
        simp only [Option.map_some'] at h
        cases h
        rw [occursAt_cons_succ]
        exact ih a hf

/-- Minimality of a successful search: no occurrence strictly before the
reported position. -/
theorem findSub_some_first (hay pat : List Char) (j : Nat)
    (h : findSub hay pat = some j) : ∀ k, k < j → occursAt pat hay k = false := by
  induction hay generalizing j with
  | nil =>
    rw [findSub_nil] at h
    by_cases hp : pat.isEmpty
    · rw [if_pos hp] at h
      cases h
      intro k hk
      omega
    · rw [if_neg hp] at h
      cases h
  | cons c rest ih =>
    rw [findSub_cons] at h
    by_cases hp : pat.isPrefixOf (c :: rest)
    · rw [if_pos hp] at h
      cases h
      intro k hk
      omega
    · rw [if_neg hp] at h
      cases hf : findSub rest pat with
      | none => rw [hf] at h; cases h
      | some a =>
        rw [hf] at h
        simp only [Option.map_some'] at h
        cases h
        intro k hk
        cases k with
        | zero =>
          show pat.isPrefixOf (c :: rest) = false
          exact bool_eq_false_of_ne_true hp
        | succ k2 =>
          rw [occursAt_cons_succ]
          exact ih a hf k2 (by omega)

/-- Completeness: a declaratively-first occurrence is the search result. -/
theorem findSub_eq_first (hay pat : List Char) (s0 : Nat)
    (h1 : occursAt pat hay s0 = true)
    (h2 : ∀ k, k < s0 → occursAt pat hay k = false) :
    findSub hay pat = some s0 := by
  cases hf : findSub hay pat with
  | none =>
    have hcontra := findSub_none_no_occurrence hay pat hf s0
    rw [h1] at hcontra
    cases hcontra
  | some j =>
    rcases lt_trichotomy j s0 with hlt | heq | hgt
    · have hcontra := h2 j hlt
      rw [findSub_some_occurs hay pat j hf] at hcontra
      cases hcontra
    · rw [heq]
    · have hcontra := findSub_some_first hay pat j hf s0 hgt
      rw [h1] at hcontra
      cases hcontra

/-! ### Normal forms of the extraction pipeline -/

theorem top_comment_contents_none_noOpen (src : List Char)
    (h : findSub src opL = none) : top_comment_contents src = none := by
  unfold top_comment_contents
  rw [h]

theorem top_comment_contents_none_noClose (src : List Char) (s0 : Nat)
    (h1 : findSub src opL = some s0)
    (h2 : findSub (src.drop (s0 + 2)) clL = none) :
    top_comment_contents src = none := by
  unfold top_comment_contents
  rw [h1]
  show (match findSub (src.drop (s0 + 2)) clL with
    | none => none
    | some e => some (trimChars ((src.drop (s0 + 2)).take e))) = none
  rw [h2]

theorem top_comment_contents_some (src : List Char) (s0 e : Nat)
    (h1 : findSub src opL = some s0)
    (h2 : findSub (src.drop (s0 + 2)) clL = some e) :
    top_comment_contents src = some (trimChars ((src.drop (s0 + 2)).take e)) := by
  unfold top_comment_contents
  rw [h1]
  show (match findSub (src.drop (s0 + 2)) clL with
    | none => none
    | some e2 => some (trimChars ((src.drop (s0 + 2)).take e2))) =
    some (trimChars ((src.drop (s0 + 2)).take e))
  rw [h2]

theorem parse_of_none (fromStr : List Char → Except String Isf) (src : List Char)
    (h : top_comment_contents src = none) :
    parse fromStr src = Except.error ParseError.missingTopComment := by
  unfold parse
  rw [h]

theorem parse_of_some (fromStr : List Char → Except String Isf) (src : List Char)
    (s : List Char) (h : top_comment_contents src = some s) :
    parse fromStr src = match fromStr s with
      | .ok c => .ok c
      | .error e => .error (.json e) := by
  unfold parse
  rw [h]

/-- Trimming a list of whitespace characters yields the empty list. -/
theorem trimChars_all_ws (l : List Char) (h : ∀ c ∈ l, c.isWhitespace) :
    trimChars l = [] := by
  unfold trimChars
  rw [List.dropWhile_eq_nil_iff.mpr h]
  rfl

/-- C7: the parse entry point finds the first occurrence of the
comment-opening marker and the first occurrence of the closing marker after
it, and hands the whitespace-trimmed text strictly between them to JSON
decoding; if either marker is absent it returns the `MissingTopComment`
error (never an empty container), and a JSON decode failure of the
extracted text is reported as the distinct `Json` error kind. -/
theorem C7_parse_extraction (fromStr : List Char → Except String Isf)
    (src : List Char) :
    ((∀ i, occursAt opL src i = false) →
      parse fromStr src = Except.error ParseError.missingTopComment) ∧
    (∀ s0, occursAt opL src s0 = true →
      (∀ k, k < s0 → occursAt opL src k = false) →
      (∀ j, occursAt clL (src.drop (s0 + 2)) j = false) →
      parse fromStr src = Except.error ParseError.missingTopComment) ∧
    (∀ s0 e, occursAt opL src s0 = true →
      (∀ k, k < s0 → occursAt opL src k = false) →
      occursAt clL (src.drop (s0 + 2)) e = true →
      (∀ k, k < e → occursAt clL (src.drop (s0 + 2)) k = false) →
      parse fromStr src =
        match fromStr (trimChars ((src.drop (s0 + 2)).take e)) with
        | .ok c => .ok c
        | .error err => .error (.json err)) := by
  refine ⟨?_, ?_, ?_⟩
  · intro h
    have hf : findSub src opL = none := by
      cases hf2 : findSub src opL with
      | none => rfl
      | some j =>
        have ho := findSub_some_occurs src opL j hf2
        rw [h j] at ho
        cases ho
    exact parse_of_none fromStr src (top_comment_contents_none_noOpen src hf)
  · intro s0 h1 h2 h3
    have hf1 : findSub src opL = some s0 := findSub_eq_first src opL s0 h1 h2
    have hf2 : findSub (src.drop (s0 + 2)) clL = none := by
      cases hf3 : findSub (src.drop (s0 + 2)) clL with
      | none => rfl
      | some j =>
        have ho := findSub_some_occurs (src.drop (s0 + 2)) clL j hf3
        rw [h3 j] at ho
        cases ho
    exact parse_of_none fromStr src
      (top_comment_contents_none_noClose src s0 hf1 hf2)
  · intro s0 e h1 h2 h3 h4
    have hf1 : findSub src opL = some s0 := findSub_eq_first src opL s0 h1 h2
    have hf2 : findSub (src.drop (s0 + 2)) clL = some e :=
      findSub_eq_first (src.drop (s0 + 2)) clL e h3 h4
    exact parse_of_some fromStr src _
      (top_comment_contents_some src s0 e hf1 hf2)

/-- Witness for C7: a source with no markers yields `MissingTopComment`; a
source with both markers hands the trimmed in-between text to the JSON
stage, whose failure surfaces as the `Json` error kind. -/
theorem C7_witness :
    parse (fun _ => Except.error "bad json") ['a', 'b'] =
      Except.error ParseError.missingTopComment ∧
    parse (fun _ => Except.error "bad json") ['/', '*', 'x', '*', '/'] =
      Except.error (ParseError.json "bad json") := by
  constructor
  · apply (C7_parse_extraction (fun _ => Except.error "bad json") ['a', 'b']).1
    intro i
    match i with
    | 0 => rfl
    | 1 => rfl
    | n + 2 =>
      show opL.isPrefixOf (List.drop n []) = false
      rw [List.drop_nil]
      rfl
  · exact (C7_parse_extraction (fun _ => Except.error "bad json")
      ['/', '*', 'x', '*', '/']).2.2 0 1 rfl
      (fun k hk => absurd hk (Nat.not_lt_zero k)) rfl
      (fun k hk => match k, hk with
        | 0, _ => rfl)

/-- C9: when the source contains an opening marker followed by a closing
marker but the text strictly between them is whitespace-only, extraction
succeeds (both markers suffice), so parse reports the JSON decode failure
of the empty trimmed contents — the `Json`/malformed-metadata kind, never
`MissingTopComment`. -/
theorem C9_empty_comment_is_json_error (fromStr : List Char → Except String Isf)
    (src : List Char) (s0 e : Nat) (err : String)
    (hop : occursAt opL src s0 = true)
    (hopF : ∀ k, k < s0 → occursAt opL src k = false)
    (hcl : occursAt clL (src.drop (s0 + 2)) e = true)
    (hclF : ∀ k, k < e → occursAt clL (src.drop (s0 + 2)) k = false)
    (hws : ∀ c ∈ (src.drop (s0 + 2)).take e, c.isWhitespace)
    (hemp : fromStr [] = Except.error err) :
    parse fromStr src = Except.error (ParseError.json err) ∧
    parse fromStr src ≠ Except.error ParseError.missingTopComment := by
  have hf1 : findSub src opL = some s0 := findSub_eq_first src opL s0 hop hopF
  have hf2 : findSub (src.drop (s0 + 2)) clL = some e :=
    findSub_eq_first (src.drop (s0 + 2)) clL e hcl hclF
  have htop := top_comment_contents_some src s0 e hf1 hf2
  rw [trimChars_all_ws _ hws] at htop
  have hp := parse_of_some fromStr src [] htop
  rw [hemp] at hp
  refine ⟨hp.trans rfl, ?_⟩
  intro hcon
  rw [hp] at hcon
  exact ParseError.noConfusion (Except.error.inj hcon)

/-- Witness for C9: the source text consisting of just the two markers. -/
theorem C9_witness :
    parse (fun _ => Except.error "EOF while parsing a value")
        ['/', '*', '*', '/'] =
      Except.error (ParseError.json "EOF while parsing a value") ∧
    parse (fun _ => Except.error "EOF while parsing a value")
        ['/', '*', '*', '/'] ≠
      Except.error ParseError.missingTopComment :=
  C9_empty_comment_is_json_error (fun _ => Except.error "EOF while parsing a value")
    ['/', '*', '*', '/'] 0 0 "EOF while parsing a value" rfl
    (fun k hk => absurd hk (Nat.not_lt_zero k)) rfl
    (fun k hk => absurd hk (Nat.not_lt_zero k))
    (fun c hc => absurd hc (List.not_mem_nil c)) rfl

/-! ### Encode-decode round trip: element lemmas -/

theorem mapExcept_map (f : α → β) (dec : β → Except ε α) (l : List α)
    (h : ∀ a, dec (f a) = Except.ok a) : mapExcept dec (l.map f) = Except.ok l := by
  induction l with
  | nil => rfl
  | cons a t ih =>
    show (do
      let b ← dec (f a)
      let bs ← mapExcept dec (t.map f)
      Except.ok (b :: bs)) = Except.ok (a :: t)
    rw [h a, ih]
    rfl

theorem fromValueI32_i32Json (x : I32) : fromValueI32 (i32Json x) = Except.ok x := by
  obtain ⟨i, hi⟩ := x
  unfold i32Json jnumOfInt
  by_cases h0 : 0 ≤ i
  · rw [if_pos h0]
    show fromValueI32 (Json.num (JNum.uint i.toNat)) = _
    have hlt : ((i.toNat : Nat) : Int) < 2 ^ 31 := by omega
    simp only [fromValueI32]
    rw [dif_pos hlt]
    exact congrArg Except.ok (Subtype.ext (show ((i.toNat : Nat) : Int) = i by omega))
  · rw [if_neg h0]
    show fromValueI32 (Json.num (JNum.int i)) = _
    simp only [fromValueI32]
    rw [dif_pos hi]

theorem fromValueU32_u32Json (m : U32) : fromValueU32 (u32Json m) = Except.ok m := by
  obtain ⟨n, h⟩ := m
  exact dif_pos h

theorem audioMax_enc (o : Option U32) : audioMax (o.map u32Json) = Except.ok o := by
  cases o with
  | none => rfl
  | some m =>
    show (fromValueU32 (u32Json m)).map some = _
    rw [fromValueU32_u32Json m]
    rfl

theorem fromValueColor_colorJson (l : List F32) :
    fromValueColor (colorJson l) = Except.ok l := by
  show mapExcept fromValueF32 (l.map f32Json) = _
  exact mapExcept_map f32Json fromValueF32 l (fun q => rfl)

theorem boolDefault_enc (o : Option Bool) :
    boolDefault (o.map Json.bool) = Except.ok o := by
  cases o <;> rfl

theorem decOptJson_opt (dec : Json → Except String α) (enc : α → Json)
    (h : ∀ a, dec (enc a) = Except.ok a) (o : Option α) :
    decOptJson dec (o.map enc) = Except.ok o := by
  cases o with
  | none => rfl
  | some a =>
    show (dec (enc a)).map some = _
    rw [h a]
    rfl

theorem map_ne_some_null (enc : α → Json) (henc : ∀ a, enc a ≠ Json.null)
    (o : Option α) : o.map enc ≠ some Json.null := by
  cases o with
  | none => exact fun h => Option.noConfusion h
  | some a => exact fun h => henc a (Option.some.inj h)

theorem getOptValue_of_lookup (kvs : List (String × Json)) (k : String)
    (o : Option Json) (hl : lookupKey kvs k = some (optJson id o))
    (hnn : o ≠ some Json.null) : getOptValue kvs k = o := by
  unfold getOptValue
  rw [hl]
  cases o with
  | none => rfl
  | some v =>
    cases v with
    | null => exact absurd rfl hnn
    | bool b => rfl
    | num n => rfl
    | str s => rfl
    | arr xs => rfl
    | obj kvs2 => rfl

/-- Decoding the full emitted field list of an `InputDict` recovers the
dict, provided no present optional value is the `null` literal (the
encoder only ever stores non-null values in present options). -/
theorem decodeInputDict_roundtrip (d : InputDict)
    (h1 : d.default ≠ some Json.null) (h2 : d.min ≠ some Json.null)
    (h3 : d.max ≠ some Json.null) (h4 : d.identity ≠ some Json.null) :
    decodeInputDict (dictKvs d) = Except.ok d := by
  obtain ⟨name, label, ty, dd, mm, xx, ii, vals, labs⟩ := d
  have hname : decodeReqString (dictKvs ⟨name, label, ty, dd, mm, xx, ii, vals, labs⟩)
      "NAME" = Except.ok name := rfl
  have hlabel : decodeOptString (dictKvs ⟨name, label, ty, dd, mm, xx, ii, vals, labs⟩)
      "LABEL" = Except.ok label := by cases label <;> rfl
  have hty : decodeReqString (dictKvs ⟨name, label, ty, dd, mm, xx, ii, vals, labs⟩)
      "TYPE" = Except.ok ty := rfl
  have hvals : decodeVec fromValueI32 (dictKvs ⟨name, label, ty, dd, mm, xx, ii, vals, labs⟩)
      "VALUES" = Except.ok vals := by
    show mapExcept fromValueI32 (vals.map i32Json) = _
    exact mapExcept_map i32Json fromValueI32 vals fromValueI32_i32Json
  have hlabs : decodeVec fromValueString (dictKvs ⟨name, label, ty, dd, mm, xx, ii, vals, labs⟩)
      "LABELS" = Except.ok labs := by
    show mapExcept fromValueString (labs.map Json.str) = _
    exact mapExcept_map Json.str fromValueString labs (fun s => rfl)
  have hdd : getOptValue (dictKvs ⟨name, label, ty, dd, mm, xx, ii, vals, labs⟩)
      "DEFAULT" = dd := getOptValue_of_lookup _ _ dd rfl h1
  have hmm : getOptValue (dictKvs ⟨name, label, ty, dd, mm, xx, ii, vals, labs⟩)
      "MIN" = mm := getOptValue_of_lookup _ _ mm rfl h2
  have hxx : getOptValue (dictKvs ⟨name, label, ty, dd, mm, xx, ii, vals, labs⟩)
      "MAX" = xx := getOptValue_of_lookup _ _ xx rfl h3
  have hii : getOptValue (dictKvs ⟨name, label, ty, dd, mm, xx, ii, vals, labs⟩)
      "IDENTITY" = ii := getOptValue_of_lookup _ _ ii rfl h4
  unfold decodeInputDict
  rw [hname, hlabel, hty, hvals, hlabs, hdd, hmm, hxx, hii]
  rfl

theorem none_ne_some_null : (none : Option Json) ≠ some Json.null :=
  fun h => Option.noConfusion h

theorem i32Json_ne_null (x : I32) : i32Json x ≠ Json.null :=
  fun h => Json.noConfusion h

theorem u32Json_ne_null (m : U32) : u32Json m ≠ Json.null :=
  fun h => Json.noConfusion h

theorem f32Json_ne_null (q : F32) : f32Json q ≠ Json.null :=
  fun h => Json.noConfusion h

theorem pt2Json_ne_null (p : F32 × F32) : pt2_to_json_value p ≠ Json.null :=
  fun h => Json.noConfusion h

theorem colorJson_ne_null (l : List F32) : colorJson l ≠ Json.null :=
  fun h => Json.noConfusion h

theorem boolJson_ne_null (b : Bool) : Json.bool b ≠ Json.null :=
  fun h => Json.noConfusion h

/-- Round trip of a single input: `Deserialize` recovers exactly what
`Serialize` emitted, for every in-memory `Input`. -/
theorem decodeInput_encodeInput (inp : Input) :
    decodeInput (encodeInput inp) = Except.ok inp := by
  obtain ⟨name, label, ty⟩ := inp
  cases ty with
  | event =>
    show decodeInput (Json.obj (dictKvs (emptyDict name label "event"))) = _
    rw [decodeInput_obj _ _ (decodeInputDict_roundtrip (emptyDict name label "event")
        none_ne_some_null none_ne_some_null none_ne_some_null none_ne_some_null),
      inputFromDict_event _ rfl]
    rfl
  | image =>
    show decodeInput (Json.obj (dictKvs (emptyDict name label "image"))) = _
    rw [decodeInput_obj _ _ (decodeInputDict_roundtrip (emptyDict name label "image")
        none_ne_some_null none_ne_some_null none_ne_some_null none_ne_some_null),
      inputFromDict_image _ rfl]
    rfl
  | bool t =>
    obtain ⟨bd⟩ := t
    show decodeInput (Json.obj (dictKvs
      ⟨name, label, "bool", bd.map Json.bool, none, none, none, [], []⟩)) = _
    rw [decodeInput_obj _ _ (decodeInputDict_roundtrip
        ⟨name, label, "bool", bd.map Json.bool, none, none, none, [], []⟩
        (map_ne_some_null Json.bool boolJson_ne_null bd)
        none_ne_some_null none_ne_some_null none_ne_some_null),
      inputFromDict_bool _ rfl, boolDefault_enc bd]
    rfl
  | long t =>
    obtain ⟨⟨ld, lm, lx, li⟩, lv, ll⟩ := t
    show decodeInput (Json.obj (dictKvs ⟨name, label, "long", ld.map i32Json,
      lm.map i32Json, lx.map i32Json, li.map i32Json, lv, ll⟩)) = _
    rw [decodeInput_obj _ _ (decodeInputDict_roundtrip ⟨name, label, "long",
        ld.map i32Json, lm.map i32Json, lx.map i32Json, li.map i32Json, lv, ll⟩
        (map_ne_some_null i32Json i32Json_ne_null ld)
        (map_ne_some_null i32Json i32Json_ne_null lm)
        (map_ne_some_null i32Json i32Json_ne_null lx)
        (map_ne_some_null i32Json i32Json_ne_null li)),
      inputFromDict_long _ rfl,
      from_opts_ok fromValueI32 (ld.map i32Json) (lm.map i32Json)
        (lx.map i32Json) (li.map i32Json) ld lm lx li
        (decOptJson_opt fromValueI32 i32Json fromValueI32_i32Json ld)
        (decOptJson_opt fromValueI32 i32Json fromValueI32_i32Json lm)
        (decOptJson_opt fromValueI32 i32Json fromValueI32_i32Json lx)
        (decOptJson_opt fromValueI32 i32Json fromValueI32_i32Json li)]
    rfl
  | float t =>
    obtain ⟨fd, fm, fx, fi⟩ := t
    show decodeInput (Json.obj (dictKvs ⟨name, label, "float", fd.map f32Json,
      fm.map f32Json, fx.map f32Json, fi.map f32Json, [], []⟩)) = _
    rw [decodeInput_obj _ _ (decodeInputDict_roundtrip ⟨name, label, "float",
        fd.map f32Json, fm.map f32Json, fx.map f32Json, fi.map f32Json, [], []⟩
        (map_ne_some_null f32Json f32Json_ne_null fd)
        (map_ne_some_null f32Json f32Json_ne_null fm)
        (map_ne_some_null f32Json f32Json_ne_null fx)
        (map_ne_some_null f32Json f32Json_ne_null fi)),
      inputFromDict_float _ rfl,
      from_opts_ok fromValueF32 (fd.map f32Json) (fm.map f32Json)
        (fx.map f32Json) (fi.map f32Json) fd fm fx fi
        (decOptJson_opt fromValueF32 f32Json (fun q => rfl) fd)
        (decOptJson_opt fromValueF32 f32Json (fun q => rfl) fm)
        (decOptJson_opt fromValueF32 f32Json (fun q => rfl) fx)
        (decOptJson_opt fromValueF32 f32Json (fun q => rfl) fi)]
    rfl
  | point2d t =>
    obtain ⟨pd, pm, px, pi⟩ := t
    show decodeInput (Json.obj (dictKvs ⟨name, label, "point2D",
      pd.map pt2_to_json_value, pm.map pt2_to_json_value,
      px.map pt2_to_json_value, pi.map pt2_to_json_value, [], []⟩)) = _
    rw [decodeInput_obj _ _ (decodeInputDict_roundtrip ⟨name, label, "point2D",
        pd.map pt2_to_json_value, pm.map pt2_to_json_value,
        px.map pt2_to_json_value, pi.map pt2_to_json_value, [], []⟩
        (map_ne_some_null pt2_to_json_value pt2Json_ne_null pd)
        (map_ne_some_null pt2_to_json_value pt2Json_ne_null pm)
        (map_ne_some_null pt2_to_json_value pt2Json_ne_null px)
        (map_ne_some_null pt2_to_json_value pt2Json_ne_null pi)),
      inputFromDict_point2d _ rfl,
      from_opts_ok fromValuePoint2d (pd.map pt2_to_json_value)
        (pm.map pt2_to_json_value) (px.map pt2_to_json_value)
        (pi.map pt2_to_json_value) pd pm px pi
        (decOptJson_opt fromValuePoint2d pt2_to_json_value
          (fun p => by obtain ⟨x, y⟩ := p; rfl) pd)
        (decOptJson_opt fromValuePoint2d pt2_to_json_value
          (fun p => by obtain ⟨x, y⟩ := p; rfl) pm)
        (decOptJson_opt fromValuePoint2d pt2_to_json_value
          (fun p => by obtain ⟨x, y⟩ := p; rfl) px)
        (decOptJson_opt fromValuePoint2d pt2_to_json_value
          (fun p => by obtain ⟨x, y⟩ := p; rfl) pi)]
    rfl
  | color t =>
    obtain ⟨cd, cm, cx, ci⟩ := t
    show decodeInput (Json.obj (dictKvs ⟨name, label, "color", cd.map colorJson,
      cm.map colorJson, cx.map colorJson, ci.map colorJson, [], []⟩)) = _
    rw [decodeInput_obj _ _ (decodeInputDict_roundtrip ⟨name, label, "color",
        cd.map colorJson, cm.map colorJson, cx.map colorJson, ci.map colorJson, [], []⟩
        (map_ne_some_null colorJson colorJson_ne_null cd)
        (map_ne_some_null colorJson colorJson_ne_null cm)
        (map_ne_some_null colorJson colorJson_ne_null cx)
        (map_ne_some_null colorJson colorJson_ne_null ci)),
      inputFromDict_color _ rfl,
      from_opts_ok fromValueColor (cd.map colorJson) (cm.map colorJson)
        (cx.map colorJson) (ci.map colorJson) cd cm cx ci
        (decOptJson_opt fromValueColor colorJson fromValueColor_colorJson cd)
        (decOptJson_opt fromValueColor colorJson fromValueColor_colorJson cm)
        (decOptJson_opt fromValueColor colorJson fromValueColor_colorJson cx)
        (decOptJson_opt fromValueColor colorJson fromValueColor_colorJson ci)]
    rfl
  | audio t =>
    obtain ⟨ns⟩ := t
    show decodeInput (Json.obj (dictKvs
      ⟨name, label, "audio", none, none, ns.map u32Json, none, [], []⟩)) = _
    rw [decodeInput_obj _ _ (decodeInputDict_roundtrip
        ⟨name, label, "audio", none, none, ns.map u32Json, none, [], []⟩
        none_ne_some_null none_ne_some_null
        (map_ne_some_null u32Json u32Json_ne_null ns) none_ne_some_null),
      inputFromDict_audio _ rfl, audioMax_enc ns]
    rfl
  | audioFft t =>
    obtain ⟨nc⟩ := t
    show decodeInput (Json.obj (dictKvs
      ⟨name, label, "audioFFT", none, none, nc.map u32Json, none, [], []⟩)) = _
    rw [decodeInput_obj _ _ (decodeInputDict_roundtrip
        ⟨name, label, "audioFFT", none, none, nc.map u32Json, none, [], []⟩
        none_ne_some_null none_ne_some_null
        (map_ne_some_null u32Json u32Json_ne_null nc) none_ne_some_null),
      inputFromDict_audioFft _ rfl, audioMax_enc nc]
    rfl

/-- Round trip of a render pass. -/
theorem decodePass_encodePass (p : Pass) : decodePass (encodePass p) = Except.ok p := by
  obtain ⟨t, pe, fl, w, hg⟩ := p
  cases t <;> cases w <;> cases hg <;> rfl

/-- Round trip of an image import. -/
theorem decodeImageImport_enc (im : ImageImport) :
    decodeImageImport (encodeImageImport im) = Except.ok im := by
  obtain ⟨path⟩ := im
  rfl

/-! ### `BTreeMap` model lemmas -/

theorem btInsert_cons (k : String) (a : ImageImport) (qk : String)
    (qa : ImageImport) (rest : List (String × ImageImport)) :
    btInsert k a ((qk, qa) :: rest) =
      if k < qk then (k, a) :: (qk, qa) :: rest
      else if k = qk then (k, a) :: rest
      else (qk, qa) :: btInsert k a rest := rfl

theorem btInsert_mem (k : String) (a : ImageImport)
    (m : List (String × ImageImport)) (b : String × ImageImport)
    (hb : b ∈ btInsert k a m) : b = (k, a) ∨ b ∈ m := by
  induction m with
  | nil =>
    rcases List.mem_cons.mp hb with h1 | h1
    · exact Or.inl h1
    · cases h1
  | cons q rest ih =>
    obtain ⟨qk, qa⟩ := q
    rw [btInsert_cons] at hb
    by_cases h1 : k < qk
    · rw [if_pos h1] at hb
      rcases List.mem_cons.mp hb with hc | hc
      · exact Or.inl hc
      · exact Or.inr hc
    · rw [if_neg h1] at hb
      by_cases h2 : k = qk
      · rw [if_pos h2] at hb
        rcases List.mem_cons.mp hb with hc | hc
        · exact Or.inl hc
        · exact Or.inr (List.mem_cons_of_mem _ hc)
      · rw [if_neg h2] at hb
        rcases List.mem_cons.mp hb with hc | hc
        · exact Or.inr (by rw [hc]; exact List.mem_cons_self _ _)
        · rcases ih hc with hd | hd
          · exact Or.inl hd
          · exact Or.inr (List.mem_cons_of_mem _ hd)

theorem btInsert_pairwise (k : String) (a : ImageImport)
    (m : List (String × ImageImport))
    (h : List.Pairwise (fun x y => x.1 < y.1) m) :
    List.Pairwise (fun x y => x.1 < y.1) (btInsert k a m) := by
  induction m with
  | nil => exact List.pairwise_singleton _ _
  | cons q rest ih =>
    obtain ⟨qk, qa⟩ := q
    rcases List.pairwise_cons.mp h with ⟨hq, hrest⟩
    rw [btInsert_cons]
    by_cases h1 : k < qk
    · rw [if_pos h1]
      refine List.pairwise_cons.mpr ⟨?_, h⟩
      intro b hb
      rcases List.mem_cons.mp hb with hc | hc
      · rw [hc]; exact h1
      · exact lt_trans h1 (hq b hc)
    · rw [if_neg h1]
      by_cases h2 : k = qk
      · rw [if_pos h2]
        refine List.pairwise_cons.mpr ⟨?_, hrest⟩
        intro b hb
        rw [h2]
        exact hq b hb
      · rw [if_neg h2]
        refine List.pairwise_cons.mpr ⟨?_, ih hrest⟩
        intro b hb
        rcases btInsert_mem k a rest b hb with hc | hc
        · rw [hc]
          rcases lt_trichotomy k qk with hd | hd | hd
          · exact absurd hd h1
          · exact absurd hd h2
          · exact hd
        · exact hq b hc

theorem normalizeBT_core_sorted (l acc : List (String × ImageImport))
    (hacc : List.Pairwise (fun x y => x.1 < y.1) acc) :
    List.Pairwise (fun x y => x.1 < y.1)
      (l.foldl (fun m p => btInsert p.1 p.2 m) acc) := by
  induction l generalizing acc with
  | nil => exact hacc
  | cons p rest ih => exact ih _ (btInsert_pairwise p.1 p.2 acc hacc)

/-- The decoded import map is always key-sorted. -/
theorem normalizeBT_sorted (l : List (String × ImageImport)) :
    List.Pairwise (fun x y => x.1 < y.1) (normalizeBT l) :=
  normalizeBT_core_sorted l [] List.Pairwise.nil

theorem btInsert_append (k : String) (a : ImageImport)
    (m : List (String × ImageImport)) (h : ∀ p ∈ m, p.1 < k) :
    btInsert k a m = m ++ [(k, a)] := by
  induction m with
  | nil => rfl
  | cons q rest ih =>
    obtain ⟨qk, qa⟩ := q
    have hq : qk < k := h (qk, qa) (List.mem_cons_self _ _)
    rw [btInsert_cons, if_neg (lt_asymm hq), if_neg (ne_of_gt hq)]
    rw [ih (fun p hp => h p (List.mem_cons_of_mem _ hp))]
    rfl

theorem normalizeBT_core_fixed (l acc : List (String × ImageImport))
    (h : List.Pairwise (fun x y => x.1 < y.1) (acc ++ l)) :
    l.foldl (fun m p => btInsert p.1 p.2 m) acc = acc ++ l := by
  induction l generalizing acc with
  | nil => simp
  | cons p rest ih =>
    have hlt : ∀ q ∈ acc, q.1 < p.1 := by
      intro q hq
      exact (List.pairwise_append.mp h).2.2 q hq p (List.mem_cons_self p rest)
    show (rest.foldl (fun m p2 => btInsert p2.1 p2.2 m) (btInsert p.1 p.2 acc)) = _
    rw [btInsert_append p.1 p.2 acc hlt]
    rw [ih (acc ++ [p]) (by simpa using h)]
    simp

/-- Re-inserting an already-sorted association list leaves it unchanged. -/
theorem normalizeBT_fixed (l : List (String × ImageImport))
    (h : List.Pairwise (fun x y => x.1 < y.1) l) : normalizeBT l = l := by
  have := normalizeBT_core_fixed l [] (by simpa using h)
  simpa using this

/-- Round trip of the whole container: re-decoding the emitted JSON value
recovers the container, provided its import map is key-sorted (as every
decoded container's is, being a `BTreeMap`). -/
theorem decodeIsf_encodeIsf (c : Isf)
    (himp : List.Pairwise (fun x y => x.1 < y.1) c.imported) :
    decodeIsf (encodeIsf c) = Except.ok c := by
  obtain ⟨iv, vv, dv, cats, inps, ps, imp⟩ := c
  show isfFromObj [("ISFVSN", optJson Json.str iv), ("VSN", optJson Json.str vv),
    ("DESCRIPTION", optJson Json.str dv),
    ("CATEGORIES", Json.arr (cats.map Json.str)),
    ("INPUTS", Json.arr (inps.map encodeInput)),
    ("PASSES", Json.arr (ps.map encodePass)),
    ("IMPORTED", Json.obj (imp.map (fun p => (p.1, encodeImageImport p.2))))] =
    Except.ok ⟨iv, vv, dv, cats, inps, ps, imp⟩
  have h1 : liftDe (decodeOptString [("ISFVSN", optJson Json.str iv),
      ("VSN", optJson Json.str vv), ("DESCRIPTION", optJson Json.str dv),
      ("CATEGORIES", Json.arr (cats.map Json.str)),
      ("INPUTS", Json.arr (inps.map encodeInput)),
      ("PASSES", Json.arr (ps.map encodePass)),
      ("IMPORTED", Json.obj (imp.map (fun p => (p.1, encodeImageImport p.2))))]
      "ISFVSN") = Except.ok iv := by cases iv <;> rfl
  have h2 : liftDe (decodeOptString [("ISFVSN", optJson Json.str iv),
      ("VSN", optJson Json.str vv), ("DESCRIPTION", optJson Json.str dv),
      ("CATEGORIES", Json.arr (cats.map Json.str)),
      ("INPUTS", Json.arr (inps.map encodeInput)),
      ("PASSES", Json.arr (ps.map encodePass)),
      ("IMPORTED", Json.obj (imp.map (fun p => (p.1, encodeImageImport p.2))))]
      "VSN") = Except.ok vv := by cases vv <;> rfl
  have h3 : liftDe (decodeOptString [("ISFVSN", optJson Json.str iv),
      ("VSN", optJson Json.str vv), ("DESCRIPTION", optJson Json.str dv),
      ("CATEGORIES", Json.arr (cats.map Json.str)),
      ("INPUTS", Json.arr (inps.map encodeInput)),
      ("PASSES", Json.arr (ps.map encodePass)),
      ("IMPORTED", Json.obj (imp.map (fun p => (p.1, encodeImageImport p.2))))]
      "DESCRIPTION") = Except.ok dv := by cases dv <;> rfl
  have h4 : liftDe (decodeVec fromValueString [("ISFVSN", optJson Json.str iv),
      ("VSN", optJson Json.str vv), ("DESCRIPTION", optJson Json.str dv),
      ("CATEGORIES", Json.arr (cats.map Json.str)),
      ("INPUTS", Json.arr (inps.map encodeInput)),
      ("PASSES", Json.arr (ps.map encodePass)),
      ("IMPORTED", Json.obj (imp.map (fun p => (p.1, encodeImageImport p.2))))]
      "CATEGORIES") = Except.ok cats := by
    show liftDe (mapExcept fromValueString (cats.map Json.str)) = _
    rw [mapExcept_map Json.str fromValueString cats (fun s => rfl)]
    rfl
  have h5 : decodeInputsField [("ISFVSN", optJson Json.str iv),
      ("VSN", optJson Json.str vv), ("DESCRIPTION", optJson Json.str dv),
      ("CATEGORIES", Json.arr (cats.map Json.str)),
      ("INPUTS", Json.arr (inps.map encodeInput)),
      ("PASSES", Json.arr (ps.map encodePass)),
      ("IMPORTED", Json.obj (imp.map (fun p => (p.1, encodeImageImport p.2))))] =
      Except.ok inps := by
    show mapExcept decodeInput (inps.map encodeInput) = _
    exact mapExcept_map encodeInput decodeInput inps decodeInput_encodeInput
  have h6 : liftDe (decodeVec decodePass [("ISFVSN", optJson Json.str iv),
      ("VSN", optJson Json.str vv), ("DESCRIPTION", optJson Json.str dv),
      ("CATEGORIES", Json.arr (cats.map Json.str)),
      ("INPUTS", Json.arr (inps.map encodeInput)),
      ("PASSES", Json.arr (ps.map encodePass)),
      ("IMPORTED", Json.obj (imp.map (fun p => (p.1, encodeImageImport p.2))))]
      "PASSES") = Except.ok ps := by
    show liftDe (mapExcept decodePass (ps.map encodePass)) = _
    rw [mapExcept_map encodePass decodePass ps decodePass_encodePass]
    rfl
  have h7 : liftDe (decodeImported [("ISFVSN", optJson Json.str iv),
      ("VSN", optJson Json.str vv), ("DESCRIPTION", optJson Json.str dv),
      ("CATEGORIES", Json.arr (cats.map Json.str)),
      ("INPUTS", Json.arr (inps.map encodeInput)),
      ("PASSES", Json.arr (ps.map encodePass)),
      ("IMPORTED", Json.obj (imp.map (fun p => (p.1, encodeImageImport p.2))))]) =
      Except.ok imp := by
    show liftDe ((mapExcept
      (fun p => (decodeImageImport p.2).map (fun im => (p.1, im)))
      (imp.map (fun p => (p.1, encodeImageImport p.2)))).map normalizeBT) = _
    rw [mapExcept_map (fun p => (p.1, encodeImageImport p.2))
      (fun p => (decodeImageImport p.2).map (fun im => (p.1, im))) imp
      (fun p => by obtain ⟨k2, im⟩ := p; obtain ⟨path⟩ := im; rfl)]
    show Except.ok (normalizeBT imp) = _
    rw [normalizeBT_fixed imp himp]
  unfold isfFromObj
  rw [h1, h2, h3, h4, h5, h6, h7]
  rfl

theorem except_bind_ok (x : Except ε α) (f : α → Except ε β) (b : β) :
    (x >>= f) = Except.ok b ↔ ∃ a, x = Except.ok a ∧ f a = Except.ok b := by
  cases x with
  | error e =>
    constructor
    · intro h
      exact Except.noConfusion h
    · rintro ⟨a, ha, _⟩
      exact Except.noConfusion ha
  | ok a =>
    constructor
    · intro h
      exact ⟨a, rfl, h⟩
    · rintro ⟨a2, ha, hf⟩
      rw [Except.ok.inj ha]
      exact hf

theorem liftDe_ok (x : Except String α) (a : α) (h : liftDe x = Except.ok a) :
    x = Except.ok a := by
  cases x with
  | ok b =>
    simp only [liftDe] at h
    rw [Except.ok.inj h]
  | error e =>
    simp only [liftDe] at h
    exact Except.noConfusion h

/-- Every decoded import map is key-sorted. -/
theorem decodeImported_sorted (kvs : List (String × Json))
    (l : List (String × ImageImport)) (h : decodeImported kvs = Except.ok l) :
    List.Pairwise (fun x y => x.1 < y.1) l := by
  unfold decodeImported at h
  cases hl : lookupKey kvs "IMPORTED" with
  | none =>
    rw [hl] at h
    rw [← Except.ok.inj h]
    exact List.Pairwise.nil
  | some v =>
    rw [hl] at h
    cases v with
    | obj m =>
      have h2 : (mapExcept
          (fun p => (decodeImageImport p.2).map (fun im => (p.1, im))) m).map
          normalizeBT = Except.ok l := h
      cases hm : mapExcept
          (fun p => (decodeImageImport p.2).map (fun im => (p.1, im))) m with
      | error e =>
        rw [hm] at h2
        exact Except.noConfusion h2
      | ok x =>
        rw [hm] at h2
        rw [← Except.ok.inj h2]
        exact normalizeBT_sorted x
    | null => exact Except.noConfusion h
    | bool b => exact Except.noConfusion h
    | num n => exact Except.noConfusion h
    | str s => exact Except.noConfusion h
    | arr xs => exact Except.noConfusion h

/-- Extract sortedness of the import map from a successful container
decode. -/
theorem isfFromObj_imported_sorted (kvs : List (String × Json)) (c : Isf)
    (h : isfFromObj kvs = Except.ok c) :
    List.Pairwise (fun x y => x.1 < y.1) c.imported := by
  unfold isfFromObj at h
  simp only [except_bind_ok] at h
  obtain ⟨a1, h1, a2, h2, a3, h3, a4, h4, a5, h5, a6, h6, a7, h7, hfin⟩ := h
  rw [← Except.ok.inj hfin]
  exact decodeImported_sorted kvs a7 (liftDe_ok _ _ h7)

/-- C3: for every JSON value that decodes successfully, encoding the
resulting container and decoding again yields a container structurally
equal to the first decode result, including the order of the inputs
sequence (the model's lists preserve order on both decode and encode). -/
theorem C3_decode_encode_decode_roundtrip (v : Json) (c : Isf)
    (h : decodeIsf v = Except.ok c) : decodeIsf (encodeIsf c) = Except.ok c := by
  cases v with
  | obj kvs => exact decodeIsf_encodeIsf c (isfFromObj_imported_sorted kvs c h)
  | null => exact Except.noConfusion h
  | bool b => exact Except.noConfusion h
  | num n => exact Except.noConfusion h
  | str s => exact Except.noConfusion h
  | arr xs => exact Except.noConfusion h

/-- Witness for C3 at a concrete decodable value exercising inputs, passes
and imports. -/
theorem C3_witness :
    decodeIsf (Json.obj [("ISFVSN", Json.str "2"),
      ("INPUTS", Json.arr [Json.obj [("NAME", Json.str "inputImage"),
        ("TYPE", Json.str "image")]]),
      ("PASSES", Json.arr [Json.obj [("TARGET", Json.str "buf"),
        ("PERSISTENT", Json.num (JNum.uint 1)),
        ("WIDTH", Json.num (JNum.uint 640))]]),
      ("IMPORTED", Json.obj [("img", Json.obj [("PATH", Json.str "a.png")])])]) =
      Except.ok ⟨some "2", none, none, [],
        [⟨"inputImage", none, InputType.image⟩],
        [⟨some "buf", true, false, some "640", none⟩],
        [("img", ⟨"a.png"⟩)]⟩ ∧
    decodeIsf (encodeIsf ⟨some "2", none, none, [],
        [⟨"inputImage", none, InputType.image⟩],
        [⟨some "buf", true, false, some "640", none⟩],
        [("img", ⟨"a.png"⟩)]⟩) =
      Except.ok ⟨some "2", none, none, [],
        [⟨"inputImage", none, InputType.image⟩],
        [⟨some "buf", true, false, some "640", none⟩],
        [("img", ⟨"a.png"⟩)]⟩ := by
  constructor
  · rfl
  · exact C3_decode_encode_decode_roundtrip
      (Json.obj [("ISFVSN", Json.str "2"),
      ("INPUTS", Json.arr [Json.obj [("NAME", Json.str "inputImage"),
        ("TYPE", Json.str "image")]]),
      ("PASSES", Json.arr [Json.obj [("TARGET", Json.str "buf"),
        ("PERSISTENT", Json.num (JNum.uint 1)),
        ("WIDTH", Json.num (JNum.uint 640))]]),
      ("IMPORTED", Json.obj [("img", Json.obj [("PATH", Json.str "a.png")])])])
      (⟨some "2", none, none, [],
        [⟨"inputImage", none, InputType.image⟩],
        [⟨some "buf", true, false, some "640", none⟩],
        [("img", ⟨"a.png"⟩)]⟩) rfl
